import Mathlib

/-!
# Verification of the egui-tetra frame-lifecycle and input-arbitration layer

A shallow embedding of `src/lib.rs` of the egui-tetra crate (the current
version under `src/src/lib.rs`, together with the URL-opening step of the
earlier in-repo version under `src/egui-tetra/src/lib.rs` where noted).

Conventions of the embedding:
* Rust `f32` values (positions, sizes, sensitivities, times) are modelled as
  `Rat`; none of the verified properties depend on floating-point rounding.
* Fallible Rust calls return `Except`.
* External collaborators (the tetra framework, the egui library internals,
  the OS clipboard, the URL opener) are modelled as oracle fields of an
  environment record `Env`; one `Env` describes the external world during
  one call/tick.
* Externally observable actions (submitting raw input to the GUI context,
  uploading the font texture, invoking the game-logic callbacks, graphics
  state changes) are recorded in an explicit `Trace`.
-/

namespace EguiTetra

/-- Model of egui's `Modifiers` (ctrl/shift/alt/command/mac_cmd booleans).
The source mutates `ctrl`, `command`, `shift` and `alt`; `macCmd` is carried
along untouched, as in the source. -/
structure Modifiers where
  alt : Bool := false
  ctrl : Bool := false
  shift : Bool := false
  macCmd : Bool := false
  command : Bool := false
deriving DecidableEq

/-- Model of `tetra::input::Key`: the keys named in the source's match arms,
plus the modifier keys, plus `Other n` standing for every remaining tetra key
(all of which fall into the source's `_` arms). -/
inductive TetraKey
  | A | B | C | D | E | F | G | H | I | J | K | L | M
  | N | O | P | Q | R | S | T | U | V | W | X | Y | Z
  | Num0 | Num1 | Num2 | Num3 | Num4 | Num5 | Num6 | Num7 | Num8 | Num9
  | NumPad0 | NumPad1 | NumPad2 | NumPad3 | NumPad4
  | NumPad5 | NumPad6 | NumPad7 | NumPad8 | NumPad9
  | NumPadEnter
  | Up | Down | Left | Right
  | Backspace | Delete | End | Enter | Escape | Home | Insert
  | PageDown | PageUp | Space | Tab
  | LeftCtrl | RightCtrl | LeftShift | RightShift | LeftAlt | RightAlt
  | Other (code : Nat)

/-- An injective numeric encoding of `TetraKey`, used only to give the type
decidable equality without a quadratic-size derived instance. -/
def TetraKey.enc : TetraKey → Nat
  | .A => 0 | .B => 1 | .C => 2 | .D => 3 | .E => 4 | .F => 5 | .G => 6
  | .H => 7 | .I => 8 | .J => 9 | .K => 10 | .L => 11 | .M => 12
  | .N => 13 | .O => 14 | .P => 15 | .Q => 16 | .R => 17 | .S => 18
  | .T => 19 | .U => 20 | .V => 21 | .W => 22 | .X => 23 | .Y => 24
  | .Z => 25
  | .Num0 => 26 | .Num1 => 27 | .Num2 => 28 | .Num3 => 29 | .Num4 => 30
  | .Num5 => 31 | .Num6 => 32 | .Num7 => 33 | .Num8 => 34 | .Num9 => 35
  | .NumPad0 => 36 | .NumPad1 => 37 | .NumPad2 => 38 | .NumPad3 => 39
  | .NumPad4 => 40 | .NumPad5 => 41 | .NumPad6 => 42 | .NumPad7 => 43
  | .NumPad8 => 44 | .NumPad9 => 45
  | .NumPadEnter => 46
  | .Up => 47 | .Down => 48 | .Left => 49 | .Right => 50
  | .Backspace => 51 | .Delete => 52 | .End => 53 | .Enter => 54
  | .Escape => 55 | .Home => 56 | .Insert => 57
  | .PageDown => 58 | .PageUp => 59 | .Space => 60 | .Tab => 61
  | .LeftCtrl => 62 | .RightCtrl => 63 | .LeftShift => 64 | .RightShift => 65
  | .LeftAlt => 66 | .RightAlt => 67
  | .Other code => code + 68

/-- Partial inverse of `TetraKey.enc`. -/
def TetraKey.dec (n : Nat) : TetraKey :=
  match n with
  | 0 => .A | 1 => .B | 2 => .C | 3 => .D | 4 => .E | 5 => .F | 6 => .G
  | 7 => .H | 8 => .I | 9 => .J | 10 => .K | 11 => .L | 12 => .M
  | 13 => .N | 14 => .O | 15 => .P | 16 => .Q | 17 => .R | 18 => .S
  | 19 => .T | 20 => .U | 21 => .V | 22 => .W | 23 => .X | 24 => .Y
  | 25 => .Z
  | 26 => .Num0 | 27 => .Num1 | 28 => .Num2 | 29 => .Num3 | 30 => .Num4
  | 31 => .Num5 | 32 => .Num6 | 33 => .Num7 | 34 => .Num8 | 35 => .Num9
  | 36 => .NumPad0 | 37 => .NumPad1 | 38 => .NumPad2 | 39 => .NumPad3
  | 40 => .NumPad4 | 41 => .NumPad5 | 42 => .NumPad6 | 43 => .NumPad7
  | 44 => .NumPad8 | 45 => .NumPad9
  | 46 => .NumPadEnter
  | 47 => .Up | 48 => .Down | 49 => .Left | 50 => .Right
  | 51 => .Backspace | 52 => .Delete | 53 => .End | 54 => .Enter
  | 55 => .Escape | 56 => .Home | 57 => .Insert
  | 58 => .PageDown | 59 => .PageUp | 60 => .Space | 61 => .Tab
  | 62 => .LeftCtrl | 63 => .RightCtrl | 64 => .LeftShift | 65 => .RightShift
  | 66 => .LeftAlt | 67 => .RightAlt
  | n => .Other (n - 68)

/-- `dec` inverts `enc`. -/
lemma TetraKey.dec_enc (k : TetraKey) : TetraKey.dec (TetraKey.enc k) = k := by
  cases k <;> rfl

instance : DecidableEq TetraKey := fun a b =>
  if h : a.enc = b.enc then
    .isTrue (by rw [← TetraKey.dec_enc a, ← TetraKey.dec_enc b, h])
  else
    .isFalse (fun hab => h (by rw [hab]))

/-- Model of `egui::Key` (egui 0.15). -/
inductive EguiKey
  | ArrowDown | ArrowLeft | ArrowRight | ArrowUp
  | Escape | Tab | Backspace | Enter | Space
  | Insert | Delete | Home | End | PageUp | PageDown
  | Num0 | Num1 | Num2 | Num3 | Num4 | Num5 | Num6 | Num7 | Num8 | Num9
  | A | B | C | D | E | F | G | H | I | J | K | L | M
  | N | O | P | Q | R | S | T | U | V | W | X | Y | Z
deriving DecidableEq

/-- Model of `tetra::input::MouseButton`: the three buttons named in the
source's match, plus `Other n` for the remaining buttons (the `_` arm). -/
inductive TetraMouseButton
  | Left | Middle | Right
  | Other (code : Nat)
deriving DecidableEq

/-- Model of `egui::PointerButton`. -/
inductive EguiPointerButton
  | Primary | Secondary | Middle
deriving DecidableEq

/-- Model of `egui::Rect` (min/max corners). -/
structure EguiRect where
  minX : Rat
  minY : Rat
  maxX : Rat
  maxY : Rat
deriving DecidableEq

/-- `egui::Rect::left()`. -/
def EguiRect.left (r : EguiRect) : Rat := r.minX

/-- `egui::Rect::top()`. -/
def EguiRect.top (r : EguiRect) : Rat := r.minY

/-- `egui::Rect::width()`. -/
def EguiRect.width (r : EguiRect) : Rat := r.maxX - r.minX

/-- `egui::Rect::height()`. -/
def EguiRect.height (r : EguiRect) : Rat := r.maxY - r.minY

/-- Model of egui's semantic input events, as far as the source emits them:
`Copy`, `Cut`, `Text`, `Key`, `PointerButton`, `PointerMoved`, `Zoom` and
`Scroll`. -/
inductive EguiEvent
  | Copy
  | Cut
  | Text (s : String)
  | Key (key : EguiKey) (pressed : Bool) (modifiers : Modifiers)
  | PointerButton (pos : Rat × Rat) (button : EguiPointerButton)
      (pressed : Bool) (modifiers : Modifiers)
  | PointerMoved (pos : Rat × Rat)
  | Zoom (factor : Rat)
  | Scroll (delta : Rat × Rat)
deriving DecidableEq

/-- Model of `tetra::Event`. `FileDropped` carries the path as a string. -/
inductive TetraEvent
  | KeyPressed (key : TetraKey)
  | KeyReleased (key : TetraKey)
  | MouseButtonPressed (button : TetraMouseButton)
  | MouseButtonReleased (button : TetraMouseButton)
  | MouseMoved (position : Rat × Rat) (delta : Rat × Rat)
  | MouseWheelMoved (amount : Int × Int)
  | TextInput (text : String)
  | Resized (width : Int) (height : Int)
  | Minimized
  | Maximized
  | Restored
  | FocusGained
  | FocusLost
  | FileDropped (path : String)
deriving DecidableEq

/-- Model of egui's `RawInput` (the raw-input accumulator), restricted to the
fields the source reads or writes: `screen_rect`, `predicted_dt`, `modifiers`
and `events`. -/
structure RawInput where
  screenRect : Option EguiRect := none
  predictedDt : Rat := 0
  modifiers : Modifiers := {}
  events : List EguiEvent := []
deriving DecidableEq

/-- Modelled from the external egui library (0.15): `RawInput::take` moves the
per-frame data out of the accumulator. The returned (submitted) input carries
all current values; in the accumulator that remains, `events` is left empty
and `screen_rect` is left `None`, while `modifiers` and `predicted_dt` are
copied and kept. -/
def RawInput.take (r : RawInput) : RawInput × RawInput :=
  (r, { r with events := [], screenRect := none })

/-- Model of egui's `FontImage` (the font atlas): a version (atlas
generation), dimensions, and one alpha byte per pixel. -/
structure FontImage where
  version : Nat
  width : Nat
  height : Nat
  pixels : List Nat
deriving DecidableEq

/-- Model of a tetra GPU `Texture`: the data it was created from. -/
structure Texture where
  width : Nat
  height : Nat
  pixels : List Nat
deriving DecidableEq

/-- Model of `tetra::TetraError` (opaque; only its identity matters here). -/
structure TetraError where
  code : Nat
deriving DecidableEq

/-- Model of `std::io::Error` as the source can observe it: either an
OS-level failure, or (with the `open` crate's 2.x behaviour) a wrapped
non-success exit status of the spawned opener command. -/
inductive IoError
  | os (code : Nat)
  | commandFailed (status : Int)
deriving DecidableEq

/-- Model of a clipboard failure (`Box<dyn Error + Send + Sync>`, opaque). -/
structure ClipboardFailure where
  code : Nat
deriving DecidableEq

/-- Model of `std::process::ExitStatus`. -/
structure ExitStatus where
  code : Int
deriving DecidableEq

/-- `ExitStatus::success()`. -/
def ExitStatus.success (s : ExitStatus) : Bool := s.code == 0

/-- The unified error type of the current version (`enum Error` in
`src/src/lib.rs`): a tetra error, a URL-opening error, or a clipboard
error. -/
inductive Error
  | TetraError (e : TetraError)
  | OpenError (e : IoError)
  | ClipboardError (e : ClipboardFailure)
deriving DecidableEq

/-- `enum OpenUrlError` of the earlier in-repo version
(`src/egui-tetra/src/lib.rs`): an I/O failure launching the opener, or a
non-success exit status from the opener process. -/
inductive OpenUrlError
  | IoError (e : IoError)
  | ProcessError (status : ExitStatus)
deriving DecidableEq

/-- What actually happens when the OS-level URL opener is invoked: the spawn
fails, or the opener process runs and exits with some status. -/
inductive OpenOutcome
  | launchFailure (e : Nat)
  | exited (code : Int)
deriving DecidableEq

/-- Model of `egui::output::OpenUrl` (only `url` is read by the source). -/
structure OpenUrl where
  url : String
deriving DecidableEq

/-- Model of egui's frame `Output`, restricted to the fields the source
reads: `open_url` and `copied_text`. -/
structure EguiOutput where
  openUrl : Option OpenUrl := none
  copiedText : String := ""
deriving DecidableEq

/-- Model of `egui::Color32` (sRGBA bytes). -/
structure Color32 where
  r : Nat
  g : Nat
  b : Nat
  a : Nat
deriving DecidableEq

/-- Model of `tetra::graphics::Color` as the bytes it was built from via
`Color::rgba8` (tetra stores normalized floats; the byte quadruple determines
them, so the bytes are kept as the representative). -/
structure Color where
  r : Nat
  g : Nat
  b : Nat
  a : Nat
deriving DecidableEq

/-- Model of an egui mesh vertex (`pos`, `uv`, `color`). -/
structure EguiVertex where
  pos : Rat × Rat
  uv : Rat × Rat
  color : Color32
deriving DecidableEq

/-- Model of `egui::epaint::Mesh` (vertices and indices; the texture id is
not consulted by the source). -/
structure EguiMesh where
  indices : List Nat
  vertices : List EguiVertex
deriving DecidableEq

/-- Model of a tetra mesh vertex. -/
structure Vertex where
  pos : Rat × Rat
  uv : Rat × Rat
  color : Color
deriving DecidableEq

/-- Model of `tetra::graphics::mesh::Mesh` as built by the source: an indexed
mesh over uploaded vertex/index buffers, with a texture and back-face
culling flag. -/
structure TetraMesh where
  vertexBuffer : List Vertex
  indexBuffer : List Nat
  texture : Option Texture
  backfaceCulling : Bool
deriving DecidableEq

/-- Model of `tetra::graphics::Rectangle<i32>`. -/
structure Rectangle where
  x : Int
  y : Int
  width : Int
  height : Int
deriving DecidableEq

/-- Model of a tetra `BlendState`: the alpha blend state with its
premultiplied flag (the only one the source constructs), or any other blend
state tetra can express. `alpha false` is tetra's default blend state. -/
inductive BlendState
  | alpha (premultiplied : Bool)
  | other (code : Nat)
deriving DecidableEq

/-- An egui shape prior to tessellation (opaque to the source: it is passed
from `ctx.end_frame()` straight into `ctx.tessellate`). -/
structure Shape where
  id : Nat
deriving DecidableEq

/-- Model of the state of egui's `CtxRef` as far as this crate observes it:
the history of raw inputs submitted through `begin_frame` (most recent
last). -/
structure CtxState where
  frames : List RawInput := []
deriving DecidableEq

/-- Externally observable actions of the wrapper, in order of occurrence. -/
inductive Trace
  | beginFrameSubmitted (input : RawInput)
  | uploadFontTexture (img : FontImage)
  | callUi
  | endFrame
  | callGameEvent (e : TetraEvent)
  | callGameUpdate
  | callGameDraw
  | setBlendState (b : BlendState)
  | setScissor (r : Rectangle)
  | drawMesh (m : TetraMesh)
  | resetScissor
  | resetBlendState
deriving DecidableEq

/-- Oracle for every external collaborator during one call/tick: tetra input
and window queries, the wall clock, the egui context's current font image and
frame output, tessellation, GPU uploads, the clipboard, the URL opener, the
GUI-consumption flags reported after `end_frame`, and the results of the four
game-logic callbacks. -/
structure Env where
  isKeyDown : TetraKey → Bool
  mousePosition : Rat × Rat
  windowWidth : Int
  windowHeight : Int
  now : Rat
  fontImage : FontImage
  textureFromData : Nat → Nat → List Nat → Except TetraError Texture
  indexBufferNew : List Nat → Except TetraError (List Nat)
  vertexBufferNew : List Vertex → Except TetraError (List Vertex)
  shapes : List Shape
  tessellate : List Shape → List (EguiRect × EguiMesh)
  output : EguiOutput
  openOutcome : String → OpenOutcome
  clipboardNew : Except ClipboardFailure Unit
  clipboardGetContents : Except ClipboardFailure String
  clipboardSetContents : String → Except ClipboardFailure Unit
  wantsKeyboard : Bool
  usingPointer : Bool
  uiResult : Except Error Unit
  eventResult : TetraEvent → Except Error Unit
  updateResult : Except Error Unit
  drawResult : Except Error Unit

/-- Result of one wrapper operation: the Rust `Result`, the state after the
call (reflecting all mutations performed before an early `?` return), and
the trace of observable actions. -/
structure OpResult (σ : Type) where
  result : Except Error Unit
  state : σ
  trace : List Trace

/-- `const SCROLL_SENSITIVITY: f32 = 48.0`. -/
def SCROLL_SENSITIVITY : Rat := 48

/-- `const ZOOM_SENSITIVITY: f32 = 1.25`. -/
def ZOOM_SENSITIVITY : Rat := 1.25

/-- Rust's `as i32` cast on a (finite) float: truncation toward zero. -/
def f32ToI32 (q : Rat) : Int := q.num / (q.den : Int)

/-- `fn tetra_key_to_egui_key` of the source: partial key mapping; keys
without an egui equivalent (modifier keys among them) map to `none`. -/
def tetra_key_to_egui_key (key : TetraKey) : Option EguiKey :=
  match key with
  | .A => some .A
  | .B => some .B
  | .C => some .C
  | .D => some .D
  | .E => some .E
  | .F => some .F
  | .G => some .G
  | .H => some .H
  | .I => some .I
  | .J => some .J
  | .K => some .K
  | .L => some .L
  | .M => some .M
  | .N => some .N
  | .O => some .O
  | .P => some .P
  | .Q => some .Q
  | .R => some .R
  | .S => some .S
  | .T => some .T
  | .U => some .U
  | .V => some .V
  | .W => some .W
  | .X => some .X
  | .Y => some .Y
  | .Z => some .Z
  | .Num0 => some .Num0
  | .Num1 => some .Num1
  | .Num2 => some .Num2
  | .Num3 => some .Num3
  | .Num4 => some .Num4
  | .Num5 => some .Num5
  | .Num6 => some .Num6
  | .Num7 => some .Num7
  | .Num8 => some .Num8
  | .Num9 => some .Num9
  | .NumPad0 => some .Num0
  | .NumPad1 => some .Num1
  | .NumPad2 => some .Num2
  | .NumPad3 => some .Num3
  | .NumPad4 => some .Num4
  | .NumPad5 => some .Num5
  | .NumPad6 => some .Num6
  | .NumPad7 => some .Num7
  | .NumPad8 => some .Num8
  | .NumPad9 => some .Num9
  | .NumPadEnter => some .Enter
  | .Up => some .ArrowUp
  | .Down => some .ArrowDown
  | .Left => some .ArrowLeft
  | .Right => some .ArrowRight
  | .Backspace => some .Backspace
  | .Delete => some .Delete
  | .End => some .End
  | .Enter => some .Enter
  | .Escape => some .Escape
  | .Home => some .Home
  | .Insert => some .Insert
  | .PageDown => some .PageDown
  | .PageUp => some .PageUp
  | .Space => some .Space
  | .Tab => some .Tab
  | _ => none

/-- `fn tetra_mouse_button_to_egui_pointer_button` of the source. -/
def tetra_mouse_button_to_egui_pointer_button
    (tetra_mouse_button : TetraMouseButton) : Option EguiPointerButton :=
  match tetra_mouse_button with
  | .Left => some .Primary
  | .Middle => some .Middle
  | .Right => some .Secondary
  | _ => none

/-- `fn egui_rect_to_tetra_rectangle`: each f32 component is cast with
`as i32` (truncation). -/
def egui_rect_to_tetra_rectangle (egui_rect : EguiRect) : Rectangle :=
  { x := f32ToI32 egui_rect.left
    y := f32ToI32 egui_rect.top
    width := f32ToI32 egui_rect.width
    height := f32ToI32 egui_rect.height }

/-- `fn egui_color32_to_tetra_color` (via `Color::rgba8`). -/
def egui_color32_to_tetra_color (egui_color : Color32) : Color :=
  { r := egui_color.r, g := egui_color.g, b := egui_color.b, a := egui_color.a }

/-- `fn egui_mesh_to_tetra_mesh`: uploads the index buffer, converts the
vertices, uploads the vertex buffer, and assembles an indexed mesh with the
given texture and back-face culling disabled. Either upload can fail. -/
def egui_mesh_to_tetra_mesh (env : Env) (egui_mesh : EguiMesh)
    (texture : Texture) : Except TetraError TetraMesh :=
  match env.indexBufferNew egui_mesh.indices with
  | .error e => .error e
  | .ok index_buffer =>
    let vertices := egui_mesh.vertices.map (fun vertex =>
      Vertex.mk vertex.pos vertex.uv (egui_color32_to_tetra_color vertex.color))
    match env.vertexBufferNew vertices with
    | .error e => .error e
    | .ok vertex_buffer =>
      .ok { vertexBuffer := vertex_buffer
            indexBuffer := index_buffer
            texture := some texture
            backfaceCulling := false }

/-- `fn egui_font_image_to_tetra_texture`: each alpha byte of the atlas is
expanded to an RGBA pixel with the alpha in every channel, then uploaded. -/
def egui_font_image_to_tetra_texture (env : Env) (egui_font_image : FontImage) :
    Except TetraError Texture :=
  let pixels := egui_font_image.pixels.flatMap (fun alpha => [alpha, alpha, alpha, alpha])
  env.textureFromData egui_font_image.width egui_font_image.height pixels

/-- Modelled from the spec (§6, §7) for the external `open` crate (2.x), not
part of this repository: `open::that` spawns the OS URL opener and reports
both an I/O failure launching it and a non-success exit status as an
`io::Error`. -/
def openThat (env : Env) (url : String) : Except IoError Unit :=
  match env.openOutcome url with
  | .launchFailure e => .error (.os e)
  | .exited code => if code = 0 then .ok () else .error (.commandFailed code)

/-- Modelled from the spec (§6) for the external `open` crate (1.x) used by
the earlier in-repo version: `open::that` returns the opener's `ExitStatus`,
failing only when the spawn itself fails. -/
def openThatV1 (outcome : OpenOutcome) : Except IoError ExitStatus :=
  match outcome with
  | .launchFailure e => .error (.os e)
  | .exited code => .ok { code := code }

/-- The URL-opening step of `end_frame` in the earlier in-repo version
(`src/egui-tetra/src/lib.rs`): a spawn failure is mapped to
`OpenUrlError::IoError`, and a non-success exit status is returned as
`OpenUrlError::ProcessError` — explicitly, neither is dropped. -/
def open_url_step_v1 (outcome : OpenOutcome) : Except OpenUrlError Unit :=
  match openThatV1 outcome with
  | .error e => .error (OpenUrlError.IoError e)
  | .ok status =>
    if !status.success then .error (OpenUrlError.ProcessError status)
    else .ok ()

/-- The `// update modifiers` match of the `KeyPressed` arm of
`EguiWrapper::event`: a ctrl key sets `ctrl` and `command`, a shift key sets
`shift`, an alt key sets `alt`, and every other key leaves the modifiers
unchanged. -/
def modifiersOnKeyPressed (m : Modifiers) (key : TetraKey) : Modifiers :=
  match key with
  | .LeftCtrl | .RightCtrl => { m with ctrl := true, command := true }
  | .LeftShift | .RightShift => { m with shift := true }
  | .LeftAlt | .RightAlt => { m with alt := true }
  | _ => m

/-- The modifier-clearing match of the `KeyReleased` arm of
`EguiWrapper::event`. -/
def modifiersOnKeyReleased (m : Modifiers) (key : TetraKey) : Modifiers :=
  match key with
  | .LeftCtrl | .RightCtrl => { m with ctrl := false, command := false }
  | .LeftShift | .RightShift => { m with shift := false }
  | .LeftAlt | .RightAlt => { m with alt := false }
  | _ => m

/-- `struct EguiWrapper` of the source: the raw-input accumulator, the egui
context, the optional cached font texture, the time of the last
`begin_frame`, and the mesh batches of the latest finished frame. -/
structure EguiWrapper where
  raw_input : RawInput
  ctx : CtxState
  texture : Option Texture
  last_frame_time : Rat
  meshes : List (Rectangle × TetraMesh)
deriving DecidableEq

/-- `EguiWrapper::new` (`Instant::now()` is supplied as `now`). -/
def EguiWrapper.new (now : Rat) : EguiWrapper :=
  { raw_input := {}
    ctx := {}
    texture := none
    last_frame_time := now
    meshes := [] }

/-- `self.raw_input.events.push(e)`. -/
def EguiWrapper.pushRaw (s : EguiWrapper) (e : EguiEvent) : EguiWrapper :=
  { s with raw_input := { s.raw_input with events := s.raw_input.events ++ [e] } }

/-- The `if let Some(key) = tetra_key_to_egui_key(*key)` block of
`EguiWrapper::event`: push a `Key` event carrying the current (already
updated) modifiers, or do nothing when the key has no egui equivalent. -/
def EguiWrapper.pushKeyEvent (s : EguiWrapper) (key : TetraKey) (pressed : Bool) :
    EguiWrapper :=
  match tetra_key_to_egui_key key with
  | some k => s.pushRaw (.Key k pressed s.raw_input.modifiers)
  | none => s

/-- `EguiWrapper::event` of the current version: dispatches a tetra event to
the egui raw-input accumulator. Returns the Rust `Result` and the wrapper
state after the call (mutations before an early `?` return are kept, as in
Rust). The only fallible path is the synchronous clipboard read on
Ctrl+V. -/
def EguiWrapper.event (env : Env) (s : EguiWrapper) (e : TetraEvent) :
    Except Error Unit × EguiWrapper :=
  match e with
  | .KeyPressed key =>
    -- update modifiers (before the keycode is translated)
    let s :=
      { s with raw_input :=
          { s.raw_input with modifiers := modifiersOnKeyPressed s.raw_input.modifiers key } }
    -- copy/cut/paste
    let ctrlDown := env.isKeyDown .LeftCtrl || env.isKeyDown .RightCtrl
    let s := if ctrlDown && key == .C then s.pushRaw .Copy else s
    let s := if ctrlDown && key == .X then s.pushRaw .Cut else s
    if ctrlDown && key == .V then
      match env.clipboardNew with
      | .error err => (.error (.ClipboardError err), s)
      | .ok _ =>
        match env.clipboardGetContents with
        | .error err => (.error (.ClipboardError err), s)
        | .ok text => (.ok (), ((s.pushRaw (.Text text)).pushKeyEvent key true))
    else
      (.ok (), s.pushKeyEvent key true)
  | .KeyReleased key =>
    let s :=
      { s with raw_input :=
          { s.raw_input with modifiers := modifiersOnKeyReleased s.raw_input.modifiers key } }
    (.ok (), s.pushKeyEvent key false)
  | .MouseButtonPressed button =>
    match tetra_mouse_button_to_egui_pointer_button button with
    | some b =>
      (.ok (), s.pushRaw (.PointerButton env.mousePosition b true s.raw_input.modifiers))
    | none => (.ok (), s)
  | .MouseButtonReleased button =>
    match tetra_mouse_button_to_egui_pointer_button button with
    | some b =>
      (.ok (), s.pushRaw (.PointerButton env.mousePosition b false s.raw_input.modifiers))
    | none => (.ok (), s)
  | .MouseMoved position _ =>
    (.ok (), s.pushRaw (.PointerMoved position))
  | .MouseWheelMoved amount =>
    if env.isKeyDown .LeftCtrl || env.isKeyDown .RightCtrl then
      (.ok (), s.pushRaw (.Zoom (ZOOM_SENSITIVITY ^ amount.2)))
    else
      (.ok (), s.pushRaw (.Scroll
        ((amount.1 : Rat) * SCROLL_SENSITIVITY, (amount.2 : Rat) * SCROLL_SENSITIVITY)))
  | .TextInput text => (.ok (), s.pushRaw (.Text text))
  | _ => (.ok (), s)

/-- `EguiWrapper::begin_frame` of the current version: sets the screen
rectangle, computes the predicted delta time, clears the stored mesh
batches, submits the taken raw input to the egui context, and — only when no
cached texture exists — creates the font-atlas texture (which can fail). -/
def EguiWrapper.begin_frame (env : Env) (s : EguiWrapper) : OpResult EguiWrapper :=
  let now := env.now
  let screen : EguiRect :=
    { minX := 0, minY := 0
      maxX := (env.windowWidth : Rat), maxY := (env.windowHeight : Rat) }
  let s :=
    { s with raw_input := { s.raw_input with screenRect := some screen } }
  let s :=
    { s with
        raw_input := { s.raw_input with predictedDt := now - s.last_frame_time }
        last_frame_time := now }
  let s := { s with meshes := [] }
  let (taken, remaining) := s.raw_input.take
  let s :=
    { s with
        raw_input := remaining
        ctx := { frames := s.ctx.frames ++ [taken] } }
  if s.texture.isNone then
    match egui_font_image_to_tetra_texture env env.fontImage with
    | .error e =>
      { result := .error (.TetraError e), state := s
        trace := [.beginFrameSubmitted taken] }
    | .ok tex =>
      { result := .ok (), state := { s with texture := some tex }
        trace := [.beginFrameSubmitted taken, .uploadFontTexture env.fontImage] }
  else
    { result := .ok (), state := s, trace := [.beginFrameSubmitted taken] }

/-- The mesh-conversion loop of `EguiWrapper::end_frame`: converts each
clipped mesh in order and pushes it onto `self.meshes`; a conversion failure
propagates immediately, keeping the batches pushed so far (the loop is not
atomic). -/
def EguiWrapper.pushMeshes (env : Env) (s : EguiWrapper)
    (clipped : List (EguiRect × EguiMesh)) (texture : Texture) :
    Except Error Unit × EguiWrapper :=
  match clipped with
  | [] => (.ok (), s)
  | (rect, mesh) :: rest =>
    let r := egui_rect_to_tetra_rectangle rect
    match egui_mesh_to_tetra_mesh env mesh texture with
    | .error e => (.error (.TetraError e), s)
    | .ok m =>
      EguiWrapper.pushMeshes env { s with meshes := s.meshes ++ [(r, m)] } rest texture

/-- The `// open URLs that were clicked` block of `EguiWrapper::end_frame`
(current version): `open::that(&open_url.url)?`, whose `io::Error` converts
into `Error::OpenError`. -/
def EguiWrapper.openUrlStep (env : Env) : Except Error Unit :=
  match env.output.openUrl with
  | some open_url =>
    (match openThat env open_url.url with
     | .error e => .error (Error.OpenError e)
     | .ok _ => .ok ())
  | none => .ok ()

/-- The `// copy text to clipboard` block of `EguiWrapper::end_frame`
(current version): when the frame produced copied text, create a clipboard
context and store the text, surfacing either failure as
`Error::ClipboardError`. -/
def EguiWrapper.copyTextStep (env : Env) : Except Error Unit :=
  if env.output.copiedText ≠ "" then
    match env.clipboardNew with
    | .error e => .error (.ClipboardError e)
    | .ok _ =>
      match env.clipboardSetContents env.output.copiedText with
      | .error e => .error (.ClipboardError e)
      | .ok _ => .ok ()
  else .ok ()

/-- The result of `end_frame` after the mesh loop finished with `r`: an
early loop error propagates; otherwise the URL-open and clipboard-copy side
effects run in order, each failure propagating. Neither side effect touches
the wrapper state. -/
def EguiWrapper.endFrameEffects (env : Env) (r : Except Error Unit) :
    Except Error Unit :=
  match r with
  | .error e => .error e
  | .ok _ =>
    match EguiWrapper.openUrlStep env with
    | .error e => .error e
    | .ok _ => EguiWrapper.copyTextStep env

/-- The body of `EguiWrapper::end_frame` of the current version: takes the
frame output and shapes from the egui context, tessellates and stores the
mesh batches when a font texture exists (the only state mutation), then
performs the URL-open and clipboard-copy side effects requested by the
output, surfacing their failures. -/
def EguiWrapper.endFrameCore (env : Env) (s : EguiWrapper) :
    Except Error Unit × EguiWrapper :=
  let step1 :=
    match s.texture with
    | some texture => EguiWrapper.pushMeshes env s (env.tessellate env.shapes) texture
    | none => (.ok (), s)
  (EguiWrapper.endFrameEffects env step1.1, step1.2)

/-- `EguiWrapper::end_frame` of the current version, as an operation with a
trace marking the end of the GUI frame. -/
def EguiWrapper.end_frame (env : Env) (s : EguiWrapper) : OpResult EguiWrapper :=
  { result := (EguiWrapper.endFrameCore env s).1
    state := (EguiWrapper.endFrameCore env s).2
    trace := [.endFrame] }

/-- `EguiWrapper::draw_frame`: enables premultiplied-alpha blending, draws
each stored mesh batch in order under its own scissor rectangle, then resets
the scissor and blend state (to tetra's defaults). The wrapper state is not
changed; the function is pure graphics output, returned as a trace. -/
def EguiWrapper.draw_frame (s : EguiWrapper) : List Trace :=
  Trace.setBlendState (BlendState.alpha true)
    :: (s.meshes.flatMap (fun rm => [Trace.setScissor rm.1, Trace.drawMesh rm.2])
        ++ [Trace.resetScissor, Trace.resetBlendState])

/-- `struct StateWrapper` of the source: the deferred event queue and the
wrapped `EguiWrapper` (the boxed game-logic state is modelled by the
callback results in `Env`). -/
structure StateWrapper where
  events : List TetraEvent
  egui : EguiWrapper
deriving DecidableEq

/-- `StateWrapper::new`. -/
def StateWrapper.new (now : Rat) : StateWrapper :=
  { events := [], egui := EguiWrapper.new now }

/-- The suppression conditions of the deferred-event drain loop in
`<StateWrapper as tetra::State>::update`, read off its match arms: key
events are dropped when the GUI wants keyboard input; mouse button, mouse
move and mouse wheel events are dropped when the GUI is using the pointer;
every other event is never dropped. -/
def shouldSuppress (env : Env) (e : TetraEvent) : Bool :=
  match e with
  | .KeyPressed _ | .KeyReleased _ => env.wantsKeyboard
  | .MouseButtonPressed _ | .MouseButtonReleased _ => env.usingPointer
  | .MouseMoved _ _ => env.usingPointer
  | .MouseWheelMoved _ => env.usingPointer
  | _ => false

/-- The `for event in self.events.drain(..)` loop of
`<StateWrapper as tetra::State>::update`: each drained event is either
suppressed (`continue`) or forwarded to the game-logic event callback, whose
failure propagates immediately. -/
def StateWrapper.drainLoop (env : Env) :
    List TetraEvent → Except Error Unit × List Trace
  | [] => (.ok (), [])
  | e :: rest =>
    if shouldSuppress env e then StateWrapper.drainLoop env rest
    else
      match env.eventResult e with
      | .error err => (.error err, [Trace.callGameEvent e])
      | .ok _ =>
        let (r, tr) := StateWrapper.drainLoop env rest
        (r, Trace.callGameEvent e :: tr)

/-- `<StateWrapper as tetra::State>::update`: begin the GUI frame, run the
GUI-construction callback, end the frame, drain the deferred event queue
through the suppression filter, then run the game-logic update callback.
A failure at any step propagates; the deferred queue is emptied by the drain
(Rust's `Vec::drain` clears it even when the loop exits early). -/
def StateWrapper.update (env : Env) (s : StateWrapper) : OpResult StateWrapper :=
  let b := s.egui.begin_frame env
  match b.result with
  | .error e => { result := .error e, state := { s with egui := b.state }, trace := b.trace }
  | .ok _ =>
    let tr1 := b.trace ++ [Trace.callUi]
    match env.uiResult with
    | .error e => { result := .error e, state := { s with egui := b.state }, trace := tr1 }
    | .ok _ =>
      let en := b.state.end_frame env
      let tr2 := tr1 ++ en.trace
      match en.result with
      | .error e =>
        { result := .error e, state := { s with egui := en.state }, trace := tr2 }
      | .ok _ =>
        let d := StateWrapper.drainLoop env s.events
        let s' : StateWrapper := { events := [], egui := en.state }
        match d.1 with
        | .error e => { result := .error e, state := s', trace := tr2 ++ d.2 }
        | .ok _ =>
          { result := env.updateResult, state := s'
            trace := tr2 ++ d.2 ++ [Trace.callGameUpdate] }

/-- `<StateWrapper as tetra::State>::draw`: the game-logic draw callback
runs first (its failure propagates), then the stored GUI mesh batches are
blitted by `draw_frame`. -/
def StateWrapper.draw (env : Env) (s : StateWrapper) : OpResult StateWrapper :=
  match env.drawResult with
  | .error e => { result := .error e, state := s, trace := [Trace.callGameDraw] }
  | .ok _ =>
    { result := .ok (), state := s, trace := Trace.callGameDraw :: s.egui.draw_frame }

/-- `<StateWrapper as tetra::State>::event`: the event is dispatched to the
egui wrapper and, when that succeeds, queued for the next update tick. -/
def StateWrapper.event (env : Env) (s : StateWrapper) (e : TetraEvent) :
    Except Error Unit × StateWrapper :=
  match s.egui.event env e with
  | (.error err, egui') => (.error err, { s with egui := egui' })
  | (.ok _, egui') => (.ok (), { events := s.events ++ [e], egui := egui' })

/-! ## Specification-side derived notions

The definitions below are not translations of further source code; they
express, over the embedded functions above, the quantities the claims talk
about (which egui events one tetra event appends, how the modifier state
evolves, the converted mesh batches of one frame, the graphics state a trace
leaves behind). Each is related to the source functions by a proved
lemma. -/

/-- How the modifier state evolves across one tetra event. -/
def modifiersAfter (m : Modifiers) : TetraEvent → Modifiers
  | .KeyPressed key => modifiersOnKeyPressed m key
  | .KeyReleased key => modifiersOnKeyReleased m key
  | _ => m

/-- The egui events that `EguiWrapper.event` appends to the raw-input
accumulator for one tetra event, given the modifier state `m` before the
event (empty when the event appends nothing, including the failing-paste
case, where the call errors before appending). -/
def eventDelta (env : Env) (m : Modifiers) : TetraEvent → List EguiEvent
  | .KeyPressed key =>
    let m' := modifiersOnKeyPressed m key
    let ctrlDown := env.isKeyDown .LeftCtrl || env.isKeyDown .RightCtrl
    let copyCut :=
      (if ctrlDown && key == .C then [EguiEvent.Copy] else [])
        ++ (if ctrlDown && key == .X then [EguiEvent.Cut] else [])
    let keyEv :=
      (match tetra_key_to_egui_key key with
       | some k => [EguiEvent.Key k true m']
       | none => [])
    if ctrlDown && key == .V then
      (match env.clipboardNew, env.clipboardGetContents with
       | .ok _, .ok text => copyCut ++ [EguiEvent.Text text] ++ keyEv
       -- a failing paste errors out before the key event is pushed
       | _, _ => copyCut)
    else copyCut ++ keyEv
  | .KeyReleased key =>
    (match tetra_key_to_egui_key key with
     | some k => [EguiEvent.Key k false (modifiersOnKeyReleased m key)]
     | none => [])
  | .MouseButtonPressed button =>
    (match tetra_mouse_button_to_egui_pointer_button button with
     | some b => [EguiEvent.PointerButton env.mousePosition b true m]
     | none => [])
  | .MouseButtonReleased button =>
    (match tetra_mouse_button_to_egui_pointer_button button with
     | some b => [EguiEvent.PointerButton env.mousePosition b false m]
     | none => [])
  | .MouseMoved position _ => [EguiEvent.PointerMoved position]
  | .MouseWheelMoved amount =>
    if env.isKeyDown .LeftCtrl || env.isKeyDown .RightCtrl then
      [EguiEvent.Zoom (ZOOM_SENSITIVITY ^ amount.2)]
    else
      [EguiEvent.Scroll
        ((amount.1 : Rat) * SCROLL_SENSITIVITY, (amount.2 : Rat) * SCROLL_SENSITIVITY)]
  | .TextInput text => [EguiEvent.Text text]
  | _ => []

/-- The egui events appended by a sequence of tetra events, in order, with
the modifier state threaded through. -/
def eventDeltas (env : Env) (m : Modifiers) : List TetraEvent → List EguiEvent
  | [] => []
  | e :: rest => eventDelta env m e ++ eventDeltas env (modifiersAfter m e) rest

/-- Sequential dispatch of a list of tetra events through
`EguiWrapper.event`, stopping at the first failure (as the host loop
would). -/
def processEvents (env : Env) (s : EguiWrapper) :
    List TetraEvent → Except Error Unit × EguiWrapper
  | [] => (.ok (), s)
  | e :: rest =>
    match EguiWrapper.event env s e with
    | (.error err, s') => (.error err, s')
    | (.ok _, s') => processEvents env s' rest

/-- The raw input `begin_frame` submits to the egui context: the accumulated
events and modifiers, under the freshly set screen rectangle and predicted
delta time. -/
def beginTaken (env : Env) (s : EguiWrapper) : RawInput :=
  { screenRect := some
      { minX := 0, minY := 0
        maxX := (env.windowWidth : Rat), maxY := (env.windowHeight : Rat) }
    predictedDt := env.now - s.last_frame_time
    modifiers := s.raw_input.modifiers
    events := s.raw_input.events }

/-- The game-logic events a trace records, in order. -/
def gameEvents (tr : List Trace) : List TetraEvent :=
  tr.filterMap (fun t => match t with | .callGameEvent e => some e | _ => none)

/-- How many font-texture uploads a trace records. -/
def uploadCount (tr : List Trace) : Nat :=
  (tr.filter (fun t => match t with | .uploadFontTexture _ => true | _ => false)).length

/-- The mesh batches one frame's tessellation output converts to (the
rectangle-tagged converted meshes, in order), or the first conversion
error. -/
def convertedBatches (env : Env) (tex : Texture)
    (clipped : List (EguiRect × EguiMesh)) :
    Except TetraError (List (Rectangle × TetraMesh)) :=
  match clipped with
  | [] => .ok []
  | (rect, mesh) :: rest =>
    match egui_mesh_to_tetra_mesh env mesh tex with
    | .error e => .error e
    | .ok m =>
      match convertedBatches env tex rest with
      | .error e => .error e
      | .ok bs => .ok ((egui_rect_to_tetra_rectangle rect, m) :: bs)

/-- The scissor/blend portion of tetra's graphics state. -/
structure GraphicsState where
  scissor : Option Rectangle
  blend : BlendState
deriving DecidableEq

/-- Modelled from tetra's graphics API (spec §6): how one trace entry acts
on the scissor/blend state. `set_scissor` installs a scissor region,
`reset_scissor` disables it; `set_blend_state` installs a blend state,
`reset_blend_state` reinstalls tetra's default (`alpha false`). Trace
entries that are not graphics-state calls leave the state unchanged (the
game-logic callbacks are treated as not altering scissor/blend state). -/
def applyTrace (g : GraphicsState) : Trace → GraphicsState
  | .setBlendState b => { g with blend := b }
  | .setScissor r => { g with scissor := some r }
  | .resetScissor => { g with scissor := none }
  | .resetBlendState => { g with blend := .alpha false }
  | _ => g

/-- The scissor/blend state left behind by a trace. -/
def applyTraces (g : GraphicsState) (tr : List Trace) : GraphicsState :=
  tr.foldl applyTrace g

/-! ## Concrete sample data for witnesses and counterexamples -/

/-- A concrete external world in which every call succeeds with fixed
values, no key is held, and the GUI consumes nothing. -/
def baseEnv : Env :=
  { isKeyDown := fun _ => false
    mousePosition := (10, 20)
    windowWidth := 800
    windowHeight := 600
    now := 5
    fontImage := { version := 0, width := 2, height := 1, pixels := [0, 255] }
    textureFromData := fun w h px => .ok { width := w, height := h, pixels := px }
    indexBufferNew := fun l => .ok l
    vertexBufferNew := fun l => .ok l
    shapes := []
    tessellate := fun _ => []
    output := {}
    openOutcome := fun _ => .exited 0
    clipboardNew := .ok ()
    clipboardGetContents := .ok "clip"
    clipboardSetContents := fun _ => .ok ()
    wantsKeyboard := false
    usingPointer := false
    uiResult := .ok ()
    eventResult := fun _ => .ok ()
    updateResult := .ok ()
    drawResult := .ok () }

/-- A state wrapper with one queued text event. -/
def sampleQueued : StateWrapper :=
  { events := [TetraEvent.TextInput "a"], egui := EguiWrapper.new 0 }

/-- `baseEnv`, but with a left-ctrl key held down in the tetra context. -/
def envCtrlDown : Env :=
  { baseEnv with isKeyDown := fun k => k == TetraKey.LeftCtrl }

/-- `baseEnv`, but the GUI reports wanting keyboard input this tick. -/
def envKbdWanted : Env :=
  { baseEnv with wantsKeyboard := true }

/-- A state wrapper with a key event, a mouse-move event and a text event
queued, in that order. -/
def sampleMixedQueue : StateWrapper :=
  { events := [TetraEvent.KeyPressed .A,
               TetraEvent.MouseMoved (3, 4) (1, 1),
               TetraEvent.TextInput "x"]
    egui := EguiWrapper.new 0 }

/-- `baseEnv` reporting atlas generation 0. -/
def envAtlasV0 : Env :=
  { baseEnv with fontImage := { version := 0, width := 2, height := 1, pixels := [0, 255] } }

/-- `baseEnv` reporting a new atlas generation 1 with different pixels. -/
def envAtlasV1 : Env :=
  { baseEnv with fontImage := { version := 1, width := 2, height := 1, pixels := [7, 9] } }

/-- The wrapper after one frame against generation 0: it caches the texture
built from the generation-0 atlas. -/
def wrapperAfterV0Frame : EguiWrapper :=
  (EguiWrapper.begin_frame envAtlasV0 (EguiWrapper.new 0)).state

/-- A concrete stored mesh batch. -/
def sampleMesh : TetraMesh :=
  { vertexBuffer := [], indexBuffer := [], texture := none, backfaceCulling := false }

/-- A state wrapper holding one mesh batch with clip rectangle (1,2,3,4). -/
def sampleWithBatch : StateWrapper :=
  { events := []
    egui := { EguiWrapper.new 0 with
                meshes := [({ x := 1, y := 2, width := 3, height := 4 }, sampleMesh)] } }

/-- A non-default graphics state in force before the draw call: a scissor
region is active and premultiplied-alpha blending is on. -/
def samplePriorGraphics : GraphicsState :=
  { scissor := some { x := 5, y := 6, width := 7, height := 8 }
    blend := BlendState.alpha true }

/-- A concrete clip rectangle from egui. -/
def sampleEguiRect : EguiRect := { minX := 0, minY := 0, maxX := 10, maxY := 10 }

/-- A concrete egui mesh with one index and no vertices. -/
def sampleEguiMesh : EguiMesh := { indices := [0], vertices := [] }

/-- `baseEnv`, but the tick's tessellation yields one clipped mesh. -/
def envOneBatch : Env :=
  { baseEnv with
      shapes := [{ id := 0 }]
      tessellate := fun _ => [(sampleEguiRect, sampleEguiMesh)] }

/-- The texture `baseEnv` builds from its generation-0 font image. -/
def sampleTexture : Texture :=
  { width := 2, height := 1, pixels := [0, 0, 0, 0, 255, 255, 255, 255] }

/-- `envCtrlDown` with a broken clipboard: creating the clipboard context
fails. -/
def envClipBroken : Env :=
  { envCtrlDown with clipboardNew := .error { code := 9 } }

/-- `baseEnv`, but the tick's tessellation yields two clipped meshes and the
GPU index-buffer upload fails exactly for the second mesh's indices `[9]`. -/
def envSecondMeshFails : Env :=
  { baseEnv with
      shapes := [{ id := 0 }, { id := 1 }]
      tessellate := fun _ =>
        [(sampleEguiRect, sampleEguiMesh),
         (sampleEguiRect, { indices := [9], vertices := [] })]
      indexBufferNew := fun l =>
        if l = [9] then .error { code := 7 } else .ok l }

/-- `baseEnv`, with the frame output requesting a URL open whose opener
process fails to launch (I/O failure). -/
def envOpenLaunchFail : Env :=
  { baseEnv with
      output := { openUrl := some { url := "file:///x" } }
      openOutcome := fun _ => .launchFailure 3 }

/-- `baseEnv`, with the frame output requesting a URL open whose opener
process exits with status 5. -/
def envOpenExitFail : Env :=
  { baseEnv with
      output := { openUrl := some { url := "file:///x" } }
      openOutcome := fun _ => .exited 5 }


/-! ## Structural lemmas -/

/-- `EguiWrapper.event` appends exactly `eventDelta` to the accumulated
events (also on the failing-paste path, where it appends nothing) and
updates the modifiers by `modifiersAfter`. -/
lemma event_raw_input (env : Env) (s : EguiWrapper) (e : TetraEvent) :
    (EguiWrapper.event env s e).2.raw_input.events
        = s.raw_input.events ++ eventDelta env s.raw_input.modifiers e
      ∧ (EguiWrapper.event env s e).2.raw_input.modifiers
        = modifiersAfter s.raw_input.modifiers e := by
  cases e <;>
    simp only [EguiWrapper.event, EguiWrapper.pushRaw, EguiWrapper.pushKeyEvent,
      eventDelta, modifiersAfter] <;>
    (repeat' split) <;>
    simp_all [List.append_assoc]

/-- `EguiWrapper.event` touches only the raw-input accumulator: the egui
context, the cached texture, the stored meshes, the frame clock, and the
screen-rectangle/delta-time fields are unchanged. -/
lemma event_preserves (env : Env) (s : EguiWrapper) (e : TetraEvent) :
    (EguiWrapper.event env s e).2.ctx = s.ctx
      ∧ (EguiWrapper.event env s e).2.texture = s.texture
      ∧ (EguiWrapper.event env s e).2.meshes = s.meshes
      ∧ (EguiWrapper.event env s e).2.last_frame_time = s.last_frame_time
      ∧ (EguiWrapper.event env s e).2.raw_input.screenRect = s.raw_input.screenRect
      ∧ (EguiWrapper.event env s e).2.raw_input.predictedDt = s.raw_input.predictedDt := by
  cases e <;>
    simp only [EguiWrapper.event, EguiWrapper.pushRaw, EguiWrapper.pushKeyEvent] <;>
    (repeat' split) <;>
    simp_all

/-- Dispatching a list of tetra events appends exactly the concatenation of
their deltas, in order, and leaves every other wrapper field unchanged
(stated for successful dispatch). -/
lemma processEvents_ok (env : Env) (s : EguiWrapper) (es : List TetraEvent)
    (h : (processEvents env s es).1 = .ok ()) :
    (processEvents env s es).2.raw_input.events
        = s.raw_input.events ++ eventDeltas env s.raw_input.modifiers es
      ∧ (processEvents env s es).2.ctx = s.ctx
      ∧ (processEvents env s es).2.texture = s.texture
      ∧ (processEvents env s es).2.meshes = s.meshes
      ∧ (processEvents env s es).2.last_frame_time = s.last_frame_time := by
  induction es generalizing s with
  | nil => simp [processEvents, eventDeltas]
  | cons e rest ih =>
    simp only [processEvents] at h ⊢
    have hei := event_raw_input env s e
    have hep := event_preserves env s e
    cases hev : EguiWrapper.event env s e with
    | mk r s' =>
      rw [hev] at hei hep h
      cases r with
      | error err => simp at h
      | ok _ =>
        simp only at h hei hep ⊢
        obtain ⟨h1, h2, h3, h4, h5⟩ := ih s' h
        refine ⟨?_, ?_, ?_, ?_, ?_⟩
        · rw [h1, hei.1, hei.2, eventDeltas, List.append_assoc]
        · rw [h2, hep.1]
        · rw [h3, hep.2.1]
        · rw [h4, hep.2.2.1]
        · rw [h5, hep.2.2.2.1]

/-- `begin_frame` submits exactly `beginTaken env s` (the accumulated events
and modifiers under the fresh screen rectangle and delta time) to the egui
context, leaves the accumulator's event list empty and its modifiers
unchanged, clears the stored meshes, and heads its trace with the
submission. -/
lemma begin_frame_state (env : Env) (s : EguiWrapper) :
    (EguiWrapper.begin_frame env s).state.raw_input.events = []
      ∧ (EguiWrapper.begin_frame env s).state.raw_input.modifiers = s.raw_input.modifiers
      ∧ (EguiWrapper.begin_frame env s).state.meshes = []
      ∧ (EguiWrapper.begin_frame env s).state.ctx.frames
          = s.ctx.frames ++ [beginTaken env s]
      ∧ (EguiWrapper.begin_frame env s).state.last_frame_time = env.now := by
  simp only [EguiWrapper.begin_frame, RawInput.take, beginTaken]
  split <;> (try split) <;> simp

/-- The trace of `begin_frame` is the submission of `beginTaken env s`,
followed by a font-texture upload exactly when no cached texture existed and
the upload succeeded. -/
lemma begin_frame_trace (env : Env) (s : EguiWrapper) :
    (EguiWrapper.begin_frame env s).trace = [Trace.beginFrameSubmitted (beginTaken env s)]
      ∨ (EguiWrapper.begin_frame env s).trace
          = [Trace.beginFrameSubmitted (beginTaken env s),
             Trace.uploadFontTexture env.fontImage] := by
  simp only [EguiWrapper.begin_frame, RawInput.take, beginTaken]
  split <;> (try split) <;> simp

/-- On success, `begin_frame` leaves a cached texture in place: the old one
if there was one, otherwise the freshly created one. -/
lemma begin_frame_texture (env : Env) (s : EguiWrapper)
    (h : (EguiWrapper.begin_frame env s).result = .ok ()) :
    (EguiWrapper.begin_frame env s).state.texture.isSome
      ∧ (s.texture.isSome → (EguiWrapper.begin_frame env s).state.texture = s.texture) := by
  simp only [EguiWrapper.begin_frame, RawInput.take] at h ⊢
  split at h <;> (try split at h) <;> simp_all [Option.isSome_iff_ne_none]

/-- A cached texture suppresses the upload branch of `begin_frame`
entirely: the call succeeds, the texture is kept, and no upload is
recorded. -/
lemma begin_frame_cached (env : Env) (s : EguiWrapper) (h : s.texture.isSome) :
    (EguiWrapper.begin_frame env s).result = .ok ()
      ∧ (EguiWrapper.begin_frame env s).state.texture = s.texture
      ∧ uploadCount (EguiWrapper.begin_frame env s).trace = 0 := by
  simp only [EguiWrapper.begin_frame, RawInput.take, uploadCount]
  split <;> (try split) <;> simp_all

/-- Without a cached texture, a successful `begin_frame` records exactly one
upload. -/
lemma begin_frame_fresh (env : Env) (s : EguiWrapper) (h : s.texture = none)
    (hok : (EguiWrapper.begin_frame env s).result = .ok ()) :
    uploadCount (EguiWrapper.begin_frame env s).trace = 1 := by
  simp only [EguiWrapper.begin_frame, RawInput.take, uploadCount] at hok ⊢
  split at hok <;> (try split at hok) <;> simp_all

/-- The mesh-conversion loop, when every conversion succeeds, appends
exactly the converted batches; a failure at some point keeps exactly the
batches converted before it. Stated through `convertedBatches`. -/
lemma pushMeshes_ok (env : Env) (tex : Texture)
    (clipped : List (EguiRect × EguiMesh)) (s : EguiWrapper)
    (bs : List (Rectangle × TetraMesh))
    (h : convertedBatches env tex clipped = .ok bs) :
    EguiWrapper.pushMeshes env s clipped tex
      = (.ok (), { s with meshes := s.meshes ++ bs }) := by
  induction clipped generalizing s bs with
  | nil =>
    simp only [convertedBatches] at h
    cases h
    simp [EguiWrapper.pushMeshes]
  | cons p rest ih =>
    obtain ⟨rect, mesh⟩ := p
    simp only [convertedBatches] at h
    cases hc : egui_mesh_to_tetra_mesh env mesh tex with
    | error e => rw [hc] at h; simp at h
    | ok m =>
      rw [hc] at h
      simp only at h
      cases hr : convertedBatches env tex rest with
      | error e => rw [hr] at h; simp at h
      | ok bs' =>
        rw [hr] at h
        simp only at h
        cases h
        simp only [EguiWrapper.pushMeshes, hc]
        rw [ih _ _ hr]
        simp [List.append_assoc]

/-- A conversion failure at position `|pre| + 1` of the tessellation output
aborts the loop with that error, keeping exactly the batches of `pre`. -/
lemma pushMeshes_fail (env : Env) (tex : Texture)
    (pre : List (EguiRect × EguiMesh)) (rect : EguiRect) (mesh : EguiMesh)
    (rest : List (EguiRect × EguiMesh)) (s : EguiWrapper)
    (bs : List (Rectangle × TetraMesh)) (e : TetraError)
    (hpre : convertedBatches env tex pre = .ok bs)
    (hfail : egui_mesh_to_tetra_mesh env mesh tex = .error e) :
    EguiWrapper.pushMeshes env s (pre ++ (rect, mesh) :: rest) tex
      = (.error (.TetraError e), { s with meshes := s.meshes ++ bs }) := by
  induction pre generalizing s bs with
  | nil =>
    simp only [convertedBatches] at hpre
    cases hpre
    simp [EguiWrapper.pushMeshes, hfail]
  | cons p pre' ih =>
    obtain ⟨r0, m0⟩ := p
    simp only [convertedBatches] at hpre
    cases hc : egui_mesh_to_tetra_mesh env m0 tex with
    | error e0 => rw [hc] at hpre; simp at hpre
    | ok m0' =>
      rw [hc] at hpre
      simp only at hpre
      cases hr : convertedBatches env tex pre' with
      | error e0 => rw [hr] at hpre; simp at hpre
      | ok bs' =>
        rw [hr] at hpre
        simp only at hpre
        cases hpre
        simp only [List.cons_append, EguiWrapper.pushMeshes, hc, List.append_eq]
        rw [ih _ _ hr]
        simp [List.append_assoc]

/-- The mesh-conversion loop touches only `meshes`. -/
lemma pushMeshes_preserves (env : Env) (tex : Texture)
    (clipped : List (EguiRect × EguiMesh)) (s : EguiWrapper) :
    (EguiWrapper.pushMeshes env s clipped tex).2.texture = s.texture
      ∧ (EguiWrapper.pushMeshes env s clipped tex).2.ctx = s.ctx
      ∧ (EguiWrapper.pushMeshes env s clipped tex).2.raw_input = s.raw_input
      ∧ (EguiWrapper.pushMeshes env s clipped tex).2.last_frame_time
          = s.last_frame_time := by
  induction clipped generalizing s with
  | nil => simp [EguiWrapper.pushMeshes]
  | cons p rest ih =>
    obtain ⟨rect, mesh⟩ := p
    simp only [EguiWrapper.pushMeshes]
    cases egui_mesh_to_tetra_mesh env mesh tex with
    | error e => simp
    | ok m => simpa using ih _

/-- A successful conversion loop means every conversion succeeded: the
converted batches exist. -/
lemma pushMeshes_ok_exists (env : Env) (tex : Texture)
    (clipped : List (EguiRect × EguiMesh)) (s : EguiWrapper)
    (h : (EguiWrapper.pushMeshes env s clipped tex).1 = .ok ()) :
    ∃ bs, convertedBatches env tex clipped = .ok bs := by
  induction clipped generalizing s with
  | nil => exact ⟨[], rfl⟩
  | cons p rest ih =>
    obtain ⟨rect, mesh⟩ := p
    simp only [EguiWrapper.pushMeshes] at h
    cases hc : egui_mesh_to_tetra_mesh env mesh tex with
    | error e => rw [hc] at h; simp at h
    | ok m =>
      rw [hc] at h
      simp only at h
      obtain ⟨bs, hbs⟩ := ih _ h
      exact ⟨(egui_rect_to_tetra_rectangle rect, m) :: bs, by
        simp [convertedBatches, hc, hbs]⟩

/-- `end_frame` touches only `meshes`: the cached texture, the egui context,
the raw-input accumulator and the frame clock are unchanged (also on a
failing call). -/
lemma end_frame_preserves (env : Env) (s : EguiWrapper) :
    (EguiWrapper.end_frame env s).state.texture = s.texture
      ∧ (EguiWrapper.end_frame env s).state.ctx = s.ctx
      ∧ (EguiWrapper.end_frame env s).state.raw_input = s.raw_input
      ∧ (EguiWrapper.end_frame env s).state.last_frame_time = s.last_frame_time := by
  simp only [EguiWrapper.end_frame, EguiWrapper.endFrameCore]
  cases htex : s.texture with
  | none => simp [htex]
  | some tex =>
    simpa [htex] using pushMeshes_preserves env tex (env.tessellate env.shapes) s

/-- The trace of `end_frame` is the single end-of-frame mark. -/
lemma end_frame_trace (env : Env) (s : EguiWrapper) :
    (EguiWrapper.end_frame env s).trace = [Trace.endFrame] := rfl

/-- A successful effects phase requires a successful mesh loop. -/
lemma endFrameEffects_ok (env : Env) (r : Except Error Unit)
    (h : EguiWrapper.endFrameEffects env r = .ok ()) : r = .ok () := by
  cases r with
  | error e => simp [EguiWrapper.endFrameEffects] at h
  | ok u => cases u; rfl

/-- A successful `end_frame` on a wrapper holding a cached texture appends
exactly the converted batches of this frame's tessellation output to the
stored meshes. -/
lemma end_frame_ok_meshes (env : Env) (s : EguiWrapper) (tex : Texture)
    (htex : s.texture = some tex)
    (h : (EguiWrapper.end_frame env s).result = .ok ()) :
    ∃ bs, convertedBatches env tex (env.tessellate env.shapes) = .ok bs
      ∧ (EguiWrapper.end_frame env s).state.meshes = s.meshes ++ bs := by
  have hres : (EguiWrapper.end_frame env s).result
      = EguiWrapper.endFrameEffects env
          (EguiWrapper.pushMeshes env s (env.tessellate env.shapes) tex).1 := by
    simp [EguiWrapper.end_frame, EguiWrapper.endFrameCore, htex]
  rw [hres] at h
  have hok := endFrameEffects_ok env _ h
  obtain ⟨bs, hbs⟩ := pushMeshes_ok_exists env tex _ s hok
  refine ⟨bs, hbs, ?_⟩
  have hstate : (EguiWrapper.end_frame env s).state
      = (EguiWrapper.pushMeshes env s (env.tessellate env.shapes) tex).2 := by
    simp [EguiWrapper.end_frame, EguiWrapper.endFrameCore, htex]
  rw [hstate, pushMeshes_ok env tex _ s bs hbs]

/-- When every non-suppressed queued event is accepted by the game-logic
event callback, the drain loop succeeds and dispatches exactly the
non-suppressed events, in original arrival order. -/
lemma drainLoop_ok (env : Env) (es : List TetraEvent)
    (h : ∀ e ∈ es, shouldSuppress env e = false → env.eventResult e = .ok ()) :
    StateWrapper.drainLoop env es
      = (.ok (),
         (es.filter (fun e => !shouldSuppress env e)).map Trace.callGameEvent) := by
  induction es with
  | nil => simp [StateWrapper.drainLoop]
  | cons e rest ih =>
    have ih' := ih (fun x hx hxs => h x (List.mem_cons_of_mem _ hx) hxs)
    simp only [StateWrapper.drainLoop, List.filter_cons]
    by_cases hs : shouldSuppress env e = true
    · simp [hs, ih']
    · have hs' : shouldSuppress env e = false := by simpa using hs
      have he := h e (List.mem_cons_self _ _) hs'
      rw [ih']
      simp [hs', he]

/-- Full characterization of a successful `StateWrapper.update` tick: the
trace is begin-frame (with the submitted input), the GUI-construction
callback, end-frame, the non-suppressed queued events in order, and the
game-logic update callback; the deferred queue ends empty and the egui state
is the one `end_frame` left. -/
lemma update_ok_spec (env : Env) (s : StateWrapper)
    (hb : (s.egui.begin_frame env).result = .ok ())
    (hui : env.uiResult = .ok ())
    (he : (EguiWrapper.end_frame env (s.egui.begin_frame env).state).result = .ok ())
    (hev : ∀ e ∈ s.events, shouldSuppress env e = false → env.eventResult e = .ok ()) :
    StateWrapper.update env s =
      { result := env.updateResult
        state :=
          { events := []
            egui := (EguiWrapper.end_frame env (s.egui.begin_frame env).state).state }
        trace := (s.egui.begin_frame env).trace ++ [Trace.callUi, Trace.endFrame]
          ++ (s.events.filter (fun e => !shouldSuppress env e)).map Trace.callGameEvent
          ++ [Trace.callGameUpdate] } := by
  simp only [StateWrapper.update]
  rw [hb, hui, end_frame_trace, he, drainLoop_ok env s.events hev]
  simp [List.append_assoc]

/-- A successful `update` tick implies its begin/end phases succeeded, the
final egui state is the one `end_frame` left, and the deferred queue is
empty. -/
lemma update_ok_inv (env : Env) (s : StateWrapper)
    (h : (StateWrapper.update env s).result = .ok ()) :
    (s.egui.begin_frame env).result = .ok ()
      ∧ (EguiWrapper.end_frame env (s.egui.begin_frame env).state).result = .ok ()
      ∧ (StateWrapper.update env s).state.egui
          = (EguiWrapper.end_frame env (s.egui.begin_frame env).state).state
      ∧ (StateWrapper.update env s).state.events = [] := by
  cases hb : (s.egui.begin_frame env).result with
  | error e => exfalso; revert h; simp [StateWrapper.update, hb]
  | ok u =>
    cases u
    cases hui : env.uiResult with
    | error e => exfalso; revert h; simp [StateWrapper.update, hb, hui]
    | ok u =>
      cases u
      cases he : (EguiWrapper.end_frame env (s.egui.begin_frame env).state).result with
      | error e => exfalso; revert h; simp [StateWrapper.update, hb, hui, he]
      | ok u =>
        cases u
        refine ⟨rfl, rfl, ?_, ?_⟩ <;>
        · simp only [StateWrapper.update, hb, hui, he]
          cases (StateWrapper.drainLoop env s.events).1 <;> simp

/-- `gameEvents` distributes over concatenation. -/
lemma gameEvents_append (a b : List Trace) :
    gameEvents (a ++ b) = gameEvents a ++ gameEvents b := by
  simp [gameEvents]

/-- `gameEvents` recovers exactly the dispatched events. -/
lemma gameEvents_map_call (l : List TetraEvent) :
    gameEvents (l.map Trace.callGameEvent) = l := by
  induction l with
  | nil => rfl
  | cons e rest ih => simpa [gameEvents, List.filterMap_cons] using ih

/-! ## Claims -/

/-- C1 — For every update tick, `StateWrapper::update` performs, in this
exact order: `begin_frame` (submitting the accumulated raw input to the GUI
context), then the GUI-construction callback exactly once, then `end_frame`
(tessellating into mesh batches), then a full drain of the deferred event
queue filtered by GUI consumption, then the game-logic update callback; and
`StateWrapper::draw` invokes the game-logic draw callback before blitting
the stored mesh batches. -/
theorem C1_update_and_draw_order (env : Env) (s : StateWrapper)
    (hb : (s.egui.begin_frame env).result = .ok ())
    (hui : env.uiResult = .ok ())
    (he : (EguiWrapper.end_frame env (s.egui.begin_frame env).state).result = .ok ())
    (hev : ∀ e ∈ s.events, shouldSuppress env e = false → env.eventResult e = .ok ())
    (hdraw : env.drawResult = .ok ()) :
    (StateWrapper.update env s).trace
        = (s.egui.begin_frame env).trace ++ [Trace.callUi, Trace.endFrame]
            ++ (s.events.filter (fun e => !shouldSuppress env e)).map Trace.callGameEvent
            ++ [Trace.callGameUpdate]
      ∧ ((s.egui.begin_frame env).trace
            = [Trace.beginFrameSubmitted (beginTaken env s.egui)]
          ∨ (s.egui.begin_frame env).trace
              = [Trace.beginFrameSubmitted (beginTaken env s.egui),
                 Trace.uploadFontTexture env.fontImage])
      ∧ (beginTaken env s.egui).events = s.egui.raw_input.events
      ∧ (StateWrapper.update env s).state.events = []
      ∧ (StateWrapper.draw env s).trace = Trace.callGameDraw :: s.egui.draw_frame := by
  rw [update_ok_spec env s hb hui he hev]
  refine ⟨by simp [List.append_assoc], begin_frame_trace env s.egui, rfl, rfl, ?_⟩
  simp [StateWrapper.draw, hdraw]

/-- Witness for C1: a concrete tick with one queued text event. -/
theorem C1_witness :
    (StateWrapper.update baseEnv sampleQueued).trace
        = (sampleQueued.egui.begin_frame baseEnv).trace ++ [Trace.callUi, Trace.endFrame]
            ++ (sampleQueued.events.filter
                (fun e => !shouldSuppress baseEnv e)).map Trace.callGameEvent
            ++ [Trace.callGameUpdate]
      ∧ ((sampleQueued.egui.begin_frame baseEnv).trace
            = [Trace.beginFrameSubmitted (beginTaken baseEnv sampleQueued.egui)]
          ∨ (sampleQueued.egui.begin_frame baseEnv).trace
              = [Trace.beginFrameSubmitted (beginTaken baseEnv sampleQueued.egui),
                 Trace.uploadFontTexture baseEnv.fontImage])
      ∧ (beginTaken baseEnv sampleQueued.egui).events
          = sampleQueued.egui.raw_input.events
      ∧ (StateWrapper.update baseEnv sampleQueued).state.events = []
      ∧ (StateWrapper.draw baseEnv sampleQueued).trace
          = Trace.callGameDraw :: sampleQueued.egui.draw_frame :=
  C1_update_and_draw_order baseEnv sampleQueued rfl rfl rfl (fun _ _ _ => rfl) rfl

/-- C2 — For every event drained from the deferred queue in a tick:
key-pressed/key-released events are dropped iff the GUI context reports
`wants_keyboard_input` after that tick's `end_frame`; mouse-button,
mouse-moved and mouse-wheel events are dropped iff it reports
`is_using_pointer`; every other event category (text input, window events)
is always forwarded; and all forwarded events reach the game-logic event
callback in original arrival order. -/
theorem C2_suppression_rules (env : Env) (s : StateWrapper)
    (k : TetraKey) (b : TetraMouseButton) (p d : Rat × Rat) (a : Int × Int)
    (t : String) (w h : Int) (path : String)
    (hb : (s.egui.begin_frame env).result = .ok ())
    (hui : env.uiResult = .ok ())
    (he : (EguiWrapper.end_frame env (s.egui.begin_frame env).state).result = .ok ())
    (hev : ∀ e ∈ s.events, shouldSuppress env e = false → env.eventResult e = .ok ()) :
    gameEvents (StateWrapper.update env s).trace
        = s.events.filter (fun e => !shouldSuppress env e)
      ∧ shouldSuppress env (.KeyPressed k) = env.wantsKeyboard
      ∧ shouldSuppress env (.KeyReleased k) = env.wantsKeyboard
      ∧ shouldSuppress env (.MouseButtonPressed b) = env.usingPointer
      ∧ shouldSuppress env (.MouseButtonReleased b) = env.usingPointer
      ∧ shouldSuppress env (.MouseMoved p d) = env.usingPointer
      ∧ shouldSuppress env (.MouseWheelMoved a) = env.usingPointer
      ∧ shouldSuppress env (.TextInput t) = false
      ∧ shouldSuppress env (.Resized w h) = false
      ∧ shouldSuppress env .Minimized = false
      ∧ shouldSuppress env .Maximized = false
      ∧ shouldSuppress env .Restored = false
      ∧ shouldSuppress env .FocusGained = false
      ∧ shouldSuppress env .FocusLost = false
      ∧ shouldSuppress env (.FileDropped path) = false := by
  rw [update_ok_spec env s hb hui he hev]
  refine ⟨?_, rfl, rfl, rfl, rfl, rfl, rfl, rfl, rfl, rfl, rfl, rfl, rfl, rfl, rfl⟩
  have hA : gameEvents (s.egui.begin_frame env).trace = [] := by
    rcases begin_frame_trace env s.egui with hg | hg <;> simp [hg, gameEvents]
  rw [gameEvents_append, gameEvents_append, gameEvents_append, hA,
    gameEvents_map_call]
  simp [gameEvents]

/-- Witness for C2: a concrete tick in which the GUI wants the keyboard but
not the pointer; the queued key event is dropped, the queued mouse-move and
text events are forwarded in order. -/
theorem C2_witness :
    gameEvents (StateWrapper.update envKbdWanted sampleMixedQueue).trace
        = sampleMixedQueue.events.filter (fun e => !shouldSuppress envKbdWanted e)
      ∧ shouldSuppress envKbdWanted (.KeyPressed .A) = envKbdWanted.wantsKeyboard
      ∧ shouldSuppress envKbdWanted (.KeyReleased .A) = envKbdWanted.wantsKeyboard
      ∧ shouldSuppress envKbdWanted (.MouseButtonPressed .Left)
          = envKbdWanted.usingPointer
      ∧ shouldSuppress envKbdWanted (.MouseButtonReleased .Left)
          = envKbdWanted.usingPointer
      ∧ shouldSuppress envKbdWanted (.MouseMoved (1, 2) (0, 0))
          = envKbdWanted.usingPointer
      ∧ shouldSuppress envKbdWanted (.MouseWheelMoved (0, 1))
          = envKbdWanted.usingPointer
      ∧ shouldSuppress envKbdWanted (.TextInput "t") = false
      ∧ shouldSuppress envKbdWanted (.Resized 3 4) = false
      ∧ shouldSuppress envKbdWanted .Minimized = false
      ∧ shouldSuppress envKbdWanted .Maximized = false
      ∧ shouldSuppress envKbdWanted .Restored = false
      ∧ shouldSuppress envKbdWanted .FocusGained = false
      ∧ shouldSuppress envKbdWanted .FocusLost = false
      ∧ shouldSuppress envKbdWanted (.FileDropped "f") = false :=
  C2_suppression_rules envKbdWanted sampleMixedQueue .A .Left (1, 2) (0, 0) (0, 1)
    "t" 3 4 "f" rfl rfl rfl (fun _ _ _ => rfl)

/-- C3 — For any two consecutive `begin_frame` calls, every semantic GUI
event appended to the raw-input accumulator after the first call and before
the second appears in exactly one GUI frame's raw input (the second frame's,
as the whole of its event list), in the order it was appended; no event is
delivered to two different frames (the first frame's input predates them and
the accumulator is empty after the second call); and the accumulator's event
list is empty immediately after each `begin_frame`. -/
theorem C3_events_delivered_exactly_once (env1 env env2 : Env) (s : EguiWrapper)
    (es : List TetraEvent)
    (hproc : (processEvents env (EguiWrapper.begin_frame env1 s).state es).1 = .ok ()) :
    (EguiWrapper.begin_frame env1 s).state.raw_input.events = []
      ∧ (EguiWrapper.begin_frame env2
            (processEvents env (EguiWrapper.begin_frame env1 s).state es).2
          ).state.raw_input.events = []
      ∧ (EguiWrapper.begin_frame env2
            (processEvents env (EguiWrapper.begin_frame env1 s).state es).2
          ).state.ctx.frames
          = (EguiWrapper.begin_frame env1 s).state.ctx.frames
              ++ [beginTaken env2
                    (processEvents env (EguiWrapper.begin_frame env1 s).state es).2]
      ∧ (beginTaken env2
            (processEvents env (EguiWrapper.begin_frame env1 s).state es).2).events
          = eventDeltas env
              (EguiWrapper.begin_frame env1 s).state.raw_input.modifiers es := by
  obtain ⟨h1ev, h1mod, h1mesh, h1frames, h1time⟩ := begin_frame_state env1 s
  obtain ⟨hpev, hpctx, hptex, hpmesh, hptime⟩ :=
    processEvents_ok env (EguiWrapper.begin_frame env1 s).state es hproc
  obtain ⟨h2ev, h2mod, h2mesh, h2frames, h2time⟩ :=
    begin_frame_state env2 (processEvents env (EguiWrapper.begin_frame env1 s).state es).2
  refine ⟨h1ev, h2ev, ?_, ?_⟩
  · rw [h2frames, hpctx]
  · show (processEvents env (EguiWrapper.begin_frame env1 s).state es).2.raw_input.events
        = _
    rw [hpev, h1ev, List.nil_append]

/-- Witness for C3: a concrete pair of frames with two events appended in
between. -/
theorem C3_witness :
    (EguiWrapper.begin_frame baseEnv (EguiWrapper.new 0)).state.raw_input.events = []
      ∧ (EguiWrapper.begin_frame envKbdWanted
            (processEvents envCtrlDown
              (EguiWrapper.begin_frame baseEnv (EguiWrapper.new 0)).state
              [TetraEvent.KeyPressed .A, TetraEvent.TextInput "q"]).2
          ).state.raw_input.events = []
      ∧ (EguiWrapper.begin_frame envKbdWanted
            (processEvents envCtrlDown
              (EguiWrapper.begin_frame baseEnv (EguiWrapper.new 0)).state
              [TetraEvent.KeyPressed .A, TetraEvent.TextInput "q"]).2
          ).state.ctx.frames
          = (EguiWrapper.begin_frame baseEnv (EguiWrapper.new 0)).state.ctx.frames
              ++ [beginTaken envKbdWanted
                    (processEvents envCtrlDown
                      (EguiWrapper.begin_frame baseEnv (EguiWrapper.new 0)).state
                      [TetraEvent.KeyPressed .A, TetraEvent.TextInput "q"]).2]
      ∧ (beginTaken envKbdWanted
            (processEvents envCtrlDown
              (EguiWrapper.begin_frame baseEnv (EguiWrapper.new 0)).state
              [TetraEvent.KeyPressed .A, TetraEvent.TextInput "q"]).2).events
          = eventDeltas envCtrlDown
              (EguiWrapper.begin_frame baseEnv
                (EguiWrapper.new 0)).state.raw_input.modifiers
              [TetraEvent.KeyPressed .A, TetraEvent.TextInput "q"] :=
  C3_events_delivered_exactly_once baseEnv envCtrlDown envKbdWanted
    (EguiWrapper.new 0) [TetraEvent.KeyPressed .A, TetraEvent.TextInput "q"] rfl

/-- C4, counterexample — the claim says a `begin_frame` observing a new
atlas generation re-creates the texture. It does not: after a frame against
generation 0 cached a texture built from the generation-0 pixels `[0, 255]`,
a `begin_frame` observing generation 1 (different pixels `[7, 9]`) performs
no upload and keeps the stale texture: the source only tests
`self.texture.is_none()` and never consults the atlas generation. -/
theorem C4_counterexample :
    envAtlasV1.fontImage.version ≠ envAtlasV0.fontImage.version
      ∧ wrapperAfterV0Frame.texture
          = some { width := 2, height := 1
                   pixels := [0, 0, 0, 0, 255, 255, 255, 255] }
      ∧ uploadCount (EguiWrapper.begin_frame envAtlasV1 wrapperAfterV0Frame).trace = 0
      ∧ (EguiWrapper.begin_frame envAtlasV1 wrapperAfterV0Frame).state.texture
          = wrapperAfterV0Frame.texture := by
  refine ⟨by decide, by decide, by decide, by decide⟩

/-- C4, amended — the font-atlas texture is uploaded iff no cached texture
exists yet: a fresh wrapper's first successful `begin_frame` performs
exactly one upload, the immediately following `begin_frame` performs none
(idempotence), and a `begin_frame` on a wrapper with a cached texture never
re-creates it, regardless of the atlas generation the GUI library reports. -/
theorem C4_upload_iff_no_cached_texture (env env2 : Env) (s s2 : EguiWrapper)
    (hnone : s.texture = none)
    (hok : (EguiWrapper.begin_frame env s).result = .ok ())
    (hsome : s2.texture.isSome) :
    uploadCount (EguiWrapper.begin_frame env s).trace = 1
      ∧ uploadCount
          (EguiWrapper.begin_frame env2 (EguiWrapper.begin_frame env s).state).trace = 0
      ∧ uploadCount (EguiWrapper.begin_frame env2 s2).trace = 0
      ∧ (EguiWrapper.begin_frame env2 s2).state.texture = s2.texture := by
  obtain ⟨hts, _⟩ := begin_frame_texture env s hok
  obtain ⟨-, -, hcount1⟩ := begin_frame_cached env2 _ hts
  obtain ⟨-, htex2, hcount2⟩ := begin_frame_cached env2 s2 hsome
  exact ⟨begin_frame_fresh env s hnone hok, hcount1, hcount2, htex2⟩

/-- Witness for C4 (amended): the concrete two-generation scenario. -/
theorem C4_witness :
    uploadCount (EguiWrapper.begin_frame envAtlasV0 (EguiWrapper.new 0)).trace = 1
      ∧ uploadCount
          (EguiWrapper.begin_frame envAtlasV1
            (EguiWrapper.begin_frame envAtlasV0 (EguiWrapper.new 0)).state).trace = 0
      ∧ uploadCount (EguiWrapper.begin_frame envAtlasV1 wrapperAfterV0Frame).trace = 0
      ∧ (EguiWrapper.begin_frame envAtlasV1 wrapperAfterV0Frame).state.texture
          = wrapperAfterV0Frame.texture :=
  C4_upload_iff_no_cached_texture envAtlasV0 envAtlasV1 (EguiWrapper.new 0)
    wrapperAfterV0Frame rfl rfl (by decide)

/-- C5, counterexample — the claim says that after the draw the scissor and
blend state are restored to the values they had before the draw call. They
are not: with a scissor region active before `StateWrapper::draw`, the call
ends with the scissor disabled (`reset_scissor`) and the blend state reset
to tetra's default, not to the prior values. -/
theorem C5_counterexample :
    (applyTraces samplePriorGraphics
        (StateWrapper.draw baseEnv sampleWithBatch).trace).scissor
        ≠ samplePriorGraphics.scissor
      ∧ (applyTraces samplePriorGraphics
          (StateWrapper.draw baseEnv sampleWithBatch).trace).blend
          ≠ samplePriorGraphics.blend := by
  refine ⟨by decide, by decide⟩

/-- C5, amended — for a tick that produced N mesh batches, the draw phase
always renders game content first, then the N batches in the order
`end_frame` produced them, each drawn with its own clip rectangle applied as
a scissor region under premultiplied-alpha blending; afterwards the scissor
is disabled and the blend state reset to tetra's default (which equal the
prior values only when those were already the defaults). -/
theorem C5_draw_order_and_state_reset (env : Env) (s : StateWrapper)
    (g : GraphicsState) (hdraw : env.drawResult = .ok ()) :
    (StateWrapper.draw env s).trace
        = Trace.callGameDraw
            :: Trace.setBlendState (BlendState.alpha true)
            :: (s.egui.meshes.flatMap
                  (fun rm => [Trace.setScissor rm.1, Trace.drawMesh rm.2])
                ++ [Trace.resetScissor, Trace.resetBlendState])
      ∧ applyTraces g (StateWrapper.draw env s).trace
          = { scissor := none, blend := BlendState.alpha false } := by
  have htr : (StateWrapper.draw env s).trace
      = Trace.callGameDraw
          :: Trace.setBlendState (BlendState.alpha true)
          :: (s.egui.meshes.flatMap
                (fun rm => [Trace.setScissor rm.1, Trace.drawMesh rm.2])
              ++ [Trace.resetScissor, Trace.resetBlendState]) := by
    simp [StateWrapper.draw, hdraw, EguiWrapper.draw_frame]
  refine ⟨htr, ?_⟩
  rw [htr]
  simp [applyTraces, List.foldl_append, applyTrace]

/-- Witness for C5 (amended): the concrete one-batch draw. -/
theorem C5_witness :
    (StateWrapper.draw baseEnv sampleWithBatch).trace
        = Trace.callGameDraw
            :: Trace.setBlendState (BlendState.alpha true)
            :: (sampleWithBatch.egui.meshes.flatMap
                  (fun rm => [Trace.setScissor rm.1, Trace.drawMesh rm.2])
                ++ [Trace.resetScissor, Trace.resetBlendState])
      ∧ applyTraces samplePriorGraphics (StateWrapper.draw baseEnv sampleWithBatch).trace
          = { scissor := none, blend := BlendState.alpha false } :=
  C5_draw_order_and_state_reset baseEnv sampleWithBatch samplePriorGraphics rfl

/-- C6 — each frame's mesh batch wholly replaces the previous frame's batch
rather than accumulating: after any two consecutive successful ticks
(including ticks with no input events), the stored mesh batch contains
exactly the batches produced by the second tick's `end_frame` (the converted
batches of the second tick's tessellation output) and none from the
first. -/
theorem C6_mesh_batches_replaced (env1 env2 : Env) (s : StateWrapper)
    (tex : Texture) (bs : List (Rectangle × TetraMesh))
    (h1 : (StateWrapper.update env1 s).result = .ok ())
    (h2 : (StateWrapper.update env2 (StateWrapper.update env1 s).state).result = .ok ())
    (htex : (StateWrapper.update env2
        (StateWrapper.update env1 s).state).state.egui.texture = some tex)
    (hbs : convertedBatches env2 tex (env2.tessellate env2.shapes) = .ok bs) :
    (StateWrapper.update env2 (StateWrapper.update env1 s).state).state.egui.meshes
      = bs := by
  obtain ⟨hb2, he2, hst2, -⟩ :=
    update_ok_inv env2 (StateWrapper.update env1 s).state h2
  obtain ⟨-, -, hmesh2, -, -⟩ :=
    begin_frame_state env2 (StateWrapper.update env1 s).state.egui
  have hpres := end_frame_preserves env2
    ((StateWrapper.update env1 s).state.egui.begin_frame env2).state
  have hbt : ((StateWrapper.update env1 s).state.egui.begin_frame env2).state.texture
      = some tex := by
    rw [← hpres.1, ← hst2]
    exact htex
  obtain ⟨bs', hbs', hm⟩ := end_frame_ok_meshes env2
    ((StateWrapper.update env1 s).state.egui.begin_frame env2).state tex hbt he2
  have hbseq : bs' = bs := by
    rw [hbs] at hbs'
    exact (Except.ok.injEq _ _).mp hbs'.symm
  rw [hst2, hm, hmesh2, hbseq, List.nil_append]

/-- Witness for C6: an empty first tick followed by a one-batch second
tick; the stored meshes are exactly the second tick's single batch. -/
theorem C6_witness :
    (StateWrapper.update envOneBatch
        (StateWrapper.update baseEnv (StateWrapper.new 0)).state).state.egui.meshes
      = [({ x := 0, y := 0, width := 10, height := 10 },
          { vertexBuffer := [], indexBuffer := [0]
            texture := some sampleTexture, backfaceCulling := false })] :=
  C6_mesh_batches_replaced baseEnv envOneBatch (StateWrapper.new 0) sampleTexture
    [({ x := 0, y := 0, width := 10, height := 10 },
      { vertexBuffer := [], indexBuffer := [0]
        texture := some sampleTexture, backfaceCulling := false })]
    rfl rfl rfl (by with_unfolding_all rfl)

/-- C7, counterexample — the claim says that on pressing left-ctrl the Key
event for ctrl itself is emitted (carrying ctrl=true). It is not: pressing
left-ctrl sets `ctrl := true` in the modifier state, but
`tetra_key_to_egui_key` has no egui equivalent for any modifier key, so no
Key event is appended at all. -/
theorem C7_counterexample :
    (EguiWrapper.event envCtrlDown (EguiWrapper.new 0)
        (.KeyPressed .LeftCtrl)).2.raw_input.modifiers.ctrl = true
      ∧ (EguiWrapper.event envCtrlDown (EguiWrapper.new 0)
          (.KeyPressed .LeftCtrl)).2.raw_input.events = []
      ∧ tetra_key_to_egui_key .LeftCtrl = none := by
  refine ⟨by decide, by decide, by decide⟩

/-- C7, amended — for every key-press event, the modifier state is updated
before the keycode is translated, so any Key event emitted for that press
carries the modifier state as of after that key's own contribution; the
modifier keys themselves have no egui equivalent, so pressing left-ctrl sets
ctrl=true but emits no Key event for ctrl. -/
theorem C7_modifiers_before_translation (env : Env) (s : EguiWrapper)
    (key : TetraKey) (k : EguiKey) (p : Bool) (m : Modifiers) :
    (EguiWrapper.event env s (.KeyPressed key)).2.raw_input.modifiers
        = modifiersOnKeyPressed s.raw_input.modifiers key
      ∧ (EguiWrapper.event env s (.KeyPressed key)).2.raw_input.events
          = s.raw_input.events
              ++ eventDelta env s.raw_input.modifiers (.KeyPressed key)
      ∧ (EguiEvent.Key k p m ∈ eventDelta env s.raw_input.modifiers (.KeyPressed key)
          → m = modifiersOnKeyPressed s.raw_input.modifiers key)
      ∧ tetra_key_to_egui_key .LeftCtrl = none
      ∧ tetra_key_to_egui_key .RightCtrl = none
      ∧ tetra_key_to_egui_key .LeftShift = none
      ∧ tetra_key_to_egui_key .RightShift = none
      ∧ tetra_key_to_egui_key .LeftAlt = none
      ∧ tetra_key_to_egui_key .RightAlt = none := by
  have h := event_raw_input env s (.KeyPressed key)
  refine ⟨h.2, h.1, ?_, rfl, rfl, rfl, rfl, rfl, rfl⟩
  intro hm
  simp only [eventDelta] at hm
  (repeat' split at hm) <;> simp_all

/-- Witness for C7 (amended): pressing A with no keys held. -/
theorem C7_witness :
    (EguiWrapper.event baseEnv (EguiWrapper.new 0)
        (.KeyPressed .A)).2.raw_input.modifiers
        = modifiersOnKeyPressed (EguiWrapper.new 0).raw_input.modifiers .A
      ∧ (EguiWrapper.event baseEnv (EguiWrapper.new 0)
          (.KeyPressed .A)).2.raw_input.events
          = (EguiWrapper.new 0).raw_input.events
              ++ eventDelta baseEnv (EguiWrapper.new 0).raw_input.modifiers
                  (.KeyPressed .A)
      ∧ ({} : Modifiers)
          = modifiersOnKeyPressed (EguiWrapper.new 0).raw_input.modifiers .A
      ∧ tetra_key_to_egui_key .LeftCtrl = none :=
  have h := C7_modifiers_before_translation baseEnv (EguiWrapper.new 0) .A .A true {}
  ⟨h.1, h.2.1, h.2.2.1 (by decide), h.2.2.2.1⟩

/-- C8 — When the GUI output requests opening a URL, both failure modes are
surfaced as errors from `end_frame`: an I/O failure launching the opener
process, and a non-zero exit status returned by the opener process; neither
is silently swallowed. In the current version both modes arrive through the
`open` crate's `io::Error` (modelled in `openThat`) and become
`Error::OpenError`; the earlier in-repo version maps them explicitly to
`OpenUrlError::IoError` and `OpenUrlError::ProcessError`
(`open_url_step_v1`). -/
theorem C8_url_open_failures_surfaced (env : Env) (s : EguiWrapper)
    (url : String) (e : Nat) (code : Int)
    (htex : s.texture = none)
    (hurl : env.output.openUrl = some { url := url }) :
    (env.openOutcome url = .launchFailure e →
        (EguiWrapper.end_frame env s).result = .error (.OpenError (.os e)))
      ∧ (env.openOutcome url = .exited code → code ≠ 0 →
          (EguiWrapper.end_frame env s).result
            = .error (.OpenError (.commandFailed code)))
      ∧ open_url_step_v1 (.launchFailure e)
          = .error (OpenUrlError.IoError (.os e))
      ∧ (code ≠ 0 → open_url_step_v1 (.exited code)
          = .error (OpenUrlError.ProcessError { code := code })) := by
  refine ⟨?_, ?_, ?_, ?_⟩
  · intro hout
    simp [EguiWrapper.end_frame, EguiWrapper.endFrameCore, htex,
      EguiWrapper.endFrameEffects, EguiWrapper.openUrlStep, hurl, openThat, hout]
  · intro hout hcode
    simp [EguiWrapper.end_frame, EguiWrapper.endFrameCore, htex,
      EguiWrapper.endFrameEffects, EguiWrapper.openUrlStep, hurl, openThat, hout,
      hcode]
  · rfl
  · intro hcode
    simp [open_url_step_v1, openThatV1, ExitStatus.success, hcode]

/-- Witness for C8: a launch failure and an exit status 5 on concrete
environments, both surfaced. -/
theorem C8_witness :
    (EguiWrapper.end_frame envOpenLaunchFail (EguiWrapper.new 0)).result
        = .error (.OpenError (.os 3))
      ∧ (EguiWrapper.end_frame envOpenExitFail (EguiWrapper.new 0)).result
          = .error (.OpenError (.commandFailed 5))
      ∧ open_url_step_v1 (.launchFailure 3)
          = .error (OpenUrlError.IoError (.os 3))
      ∧ open_url_step_v1 (.exited 5)
          = .error (OpenUrlError.ProcessError { code := 5 }) :=
  have hl := C8_url_open_failures_surfaced envOpenLaunchFail (EguiWrapper.new 0)
    "file:///x" 3 5 rfl rfl
  have he := C8_url_open_failures_surfaced envOpenExitFail (EguiWrapper.new 0)
    "file:///x" 3 5 rfl rfl
  ⟨hl.1 rfl, he.2.1 rfl (by decide), hl.2.2.1, he.2.2.2 (by decide)⟩

/-- C9 — a key-press of V while a ctrl key is held synchronously reads the
host clipboard and appends its text to the raw-input accumulator as a GUI
text event (followed by the Key event for V); if clipboard access fails —
creating the clipboard context or reading its contents — the event handler
returns a `ClipboardError`-variant error to the caller and no text event is
appended. -/
theorem C9_paste_reads_clipboard (env : Env) (s : EguiWrapper) (text : String)
    (err : ClipboardFailure)
    (hctrl : (env.isKeyDown .LeftCtrl || env.isKeyDown .RightCtrl) = true) :
    (env.clipboardNew = .ok () → env.clipboardGetContents = .ok text →
        (EguiWrapper.event env s (.KeyPressed .V)).1 = .ok ()
      ∧ (EguiWrapper.event env s (.KeyPressed .V)).2.raw_input.events
          = s.raw_input.events
              ++ [EguiEvent.Text text,
                  EguiEvent.Key .V true s.raw_input.modifiers])
      ∧ (env.clipboardNew = .error err →
          (EguiWrapper.event env s (.KeyPressed .V)).1
              = .error (.ClipboardError err)
        ∧ (EguiWrapper.event env s (.KeyPressed .V)).2.raw_input.events
            = s.raw_input.events)
      ∧ (env.clipboardNew = .ok () → env.clipboardGetContents = .error err →
          (EguiWrapper.event env s (.KeyPressed .V)).1
              = .error (.ClipboardError err)
        ∧ (EguiWrapper.event env s (.KeyPressed .V)).2.raw_input.events
            = s.raw_input.events) := by
  have hC : (TetraKey.V == TetraKey.C) = false := rfl
  have hX : (TetraKey.V == TetraKey.X) = false := rfl
  have hVv : (TetraKey.V == TetraKey.V) = true := rfl
  have hkey : tetra_key_to_egui_key TetraKey.V = some EguiKey.V := rfl
  have hmod : modifiersOnKeyPressed s.raw_input.modifiers TetraKey.V
      = s.raw_input.modifiers := rfl
  refine ⟨fun hnew hget => ?_, fun hnew => ?_, fun hnew hget => ?_⟩
  · simp only [EguiWrapper.event, hctrl, hC, hX, hVv, Bool.and_false,
      Bool.true_and, Bool.and_true, hnew, hget, EguiWrapper.pushRaw,
      EguiWrapper.pushKeyEvent, hkey, hmod]
    simp [List.append_assoc]
  · simp only [EguiWrapper.event, hctrl, hC, hX, hVv, Bool.and_false,
      Bool.true_and, Bool.and_true, hnew, EguiWrapper.pushRaw,
      EguiWrapper.pushKeyEvent, hkey, hmod]
    simp
  · simp only [EguiWrapper.event, hctrl, hC, hX, hVv, Bool.and_false,
      Bool.true_and, Bool.and_true, hnew, hget, EguiWrapper.pushRaw,
      EguiWrapper.pushKeyEvent, hkey, hmod]
    simp

/-- Witness for C9: a successful paste on `envCtrlDown` (clipboard text
"clip"), and a failing paste on `envClipBroken`. -/
theorem C9_witness :
    ((EguiWrapper.event envCtrlDown (EguiWrapper.new 0) (.KeyPressed .V)).1 = .ok ()
      ∧ (EguiWrapper.event envCtrlDown (EguiWrapper.new 0)
          (.KeyPressed .V)).2.raw_input.events
          = (EguiWrapper.new 0).raw_input.events
              ++ [EguiEvent.Text "clip",
                  EguiEvent.Key .V true (EguiWrapper.new 0).raw_input.modifiers])
      ∧ ((EguiWrapper.event envClipBroken (EguiWrapper.new 0) (.KeyPressed .V)).1
            = .error (.ClipboardError { code := 9 })
        ∧ (EguiWrapper.event envClipBroken (EguiWrapper.new 0)
            (.KeyPressed .V)).2.raw_input.events
            = (EguiWrapper.new 0).raw_input.events) :=
  have hok := C9_paste_reads_clipboard envCtrlDown (EguiWrapper.new 0) "clip"
    { code := 9 } (by decide)
  have hbad := C9_paste_reads_clipboard envClipBroken (EguiWrapper.new 0) "clip"
    { code := 9 } (by decide)
  ⟨hok.1 rfl rfl, hbad.2.1 rfl⟩

/-- C10 — `end_frame` is not atomic with respect to the stored mesh batch:
when converting the k-th tessellated mesh fails (k > 1), `end_frame` returns
that error while the first k-1 converted batches of the current tick remain
stored (the previous tick's batch having already been cleared by
`begin_frame`), so a subsequent `draw_frame` renders a partial GUI frame
rather than the previous complete one. -/
theorem C10_end_frame_partial_on_failure (env1 env2 : Env) (w : EguiWrapper)
    (tex : Texture) (pre rest : List (EguiRect × EguiMesh)) (rect : EguiRect)
    (mesh : EguiMesh) (bs : List (Rectangle × TetraMesh)) (e : TetraError)
    (htex : (EguiWrapper.begin_frame env1 w).state.texture = some tex)
    (htess : env2.tessellate env2.shapes = pre ++ (rect, mesh) :: rest)
    (hpre : convertedBatches env2 tex pre = .ok bs)
    (hfail : egui_mesh_to_tetra_mesh env2 mesh tex = .error e) :
    (EguiWrapper.end_frame env2 (EguiWrapper.begin_frame env1 w).state).result
        = .error (.TetraError e)
      ∧ (EguiWrapper.end_frame env2
            (EguiWrapper.begin_frame env1 w).state).state.meshes = bs
      ∧ EguiWrapper.draw_frame
            (EguiWrapper.end_frame env2 (EguiWrapper.begin_frame env1 w).state).state
          = Trace.setBlendState (BlendState.alpha true)
              :: (bs.flatMap (fun rm => [Trace.setScissor rm.1, Trace.drawMesh rm.2])
                  ++ [Trace.resetScissor, Trace.resetBlendState]) := by
  obtain ⟨-, -, hmesh1, -, -⟩ := begin_frame_state env1 w
  have hpush := pushMeshes_fail env2 tex pre rect mesh rest
    (EguiWrapper.begin_frame env1 w).state bs e hpre hfail
  have hres : (EguiWrapper.end_frame env2 (EguiWrapper.begin_frame env1 w).state).result
      = EguiWrapper.endFrameEffects env2
          (EguiWrapper.pushMeshes env2 (EguiWrapper.begin_frame env1 w).state
            (env2.tessellate env2.shapes) tex).1 := by
    simp [EguiWrapper.end_frame, EguiWrapper.endFrameCore, htex]
  have hstate : (EguiWrapper.end_frame env2
        (EguiWrapper.begin_frame env1 w).state).state
      = (EguiWrapper.pushMeshes env2 (EguiWrapper.begin_frame env1 w).state
          (env2.tessellate env2.shapes) tex).2 := by
    simp [EguiWrapper.end_frame, EguiWrapper.endFrameCore, htex]
  rw [htess] at hres hstate
  rw [hpush] at hres hstate
  have hmeshes : (EguiWrapper.end_frame env2
        (EguiWrapper.begin_frame env1 w).state).state.meshes = bs := by
    rw [hstate]
    simp [hmesh1]
  refine ⟨by rw [hres]; rfl, hmeshes, ?_⟩
  simp [EguiWrapper.draw_frame, hmeshes]

/-- Witness for C10: a second tick whose tessellation yields two meshes, the
second of which fails to convert; `end_frame` errors and exactly the first
batch stays stored. -/
theorem C10_witness :
    (EguiWrapper.end_frame envSecondMeshFails
        (EguiWrapper.begin_frame baseEnv (EguiWrapper.new 0)).state).result
        = .error (.TetraError { code := 7 })
      ∧ (EguiWrapper.end_frame envSecondMeshFails
            (EguiWrapper.begin_frame baseEnv (EguiWrapper.new 0)).state).state.meshes
          = [({ x := 0, y := 0, width := 10, height := 10 },
              { vertexBuffer := [], indexBuffer := [0]
                texture := some sampleTexture, backfaceCulling := false })]
      ∧ EguiWrapper.draw_frame
            (EguiWrapper.end_frame envSecondMeshFails
              (EguiWrapper.begin_frame baseEnv (EguiWrapper.new 0)).state).state
          = Trace.setBlendState (BlendState.alpha true)
              :: ([({ x := 0, y := 0, width := 10, height := 10 },
                    { vertexBuffer := [], indexBuffer := [0]
                      texture := some sampleTexture,
                      backfaceCulling := false })].flatMap
                    (fun rm => [Trace.setScissor rm.1, Trace.drawMesh rm.2])
                  ++ [Trace.resetScissor, Trace.resetBlendState]) :=
  C10_end_frame_partial_on_failure baseEnv envSecondMeshFails (EguiWrapper.new 0)
    sampleTexture [(sampleEguiRect, sampleEguiMesh)] [] sampleEguiRect
    { indices := [9], vertices := [] }
    [({ x := 0, y := 0, width := 10, height := 10 },
      { vertexBuffer := [], indexBuffer := [0]
        texture := some sampleTexture, backfaceCulling := false })]
    { code := 7 } rfl rfl (by with_unfolding_all rfl) rfl

end EguiTetra
